import Mathlib

/-
Verification of the `@ibnlanre/multer` storage-engine mock library.

This file shallowly embeds the library's data model and operations:
  - `MemoryWritable`           (src/utilities/memory-writable.ts)
  - the shared in-memory store (src/utilities/in-memory-storage.ts)
  - `FakeMulterStorage`        (src/libraries/fake-multer-storage/index.ts)
  - `FakeMulterS3`             (src/libraries/fake-multer-s3/index.ts)
  - `FakeMulterCloudStorage`   (src/libraries/fake-multer-cloud-storage/index.ts)
  - `FakeMulterAzureBlobStorage`

Modelling conventions:
  - A byte is a `Nat`; a Node `Buffer` is a `List Nat`.
  - The callback-chain of each `_handleFile` is embedded as a sequential
    `match` on `Except` results; a handler calling `cb(err)` is `.error err`,
    `cb(null, v)` is `.ok v` with `Option String` for `string | undefined`.
  - External nondeterminism (tmpdir, randomBytes, uuid v4, Math.random,
    Date.now, process.env) is threaded through an explicit `Env` record.
  - JS truthiness of option values (`x || default`) is modelled explicitly:
    the empty string, `undefined` and `null` are falsy.
-/

/-- A byte value, as read from a stream chunk. -/
abbrev Byte := Nat

/-- A Node `Buffer`: a finite byte sequence. -/
abbrev Buffer := List Byte

/-- An error value passed to a callback (identified by its message). -/
abbrev Err := String

/-- Total number of bytes across a list of chunks. -/
def totalBytes (chunks : List Buffer) : Nat :=
  (chunks.map List.length).sum

/-! ## MemoryWritable (src/utilities/memory-writable.ts) -/

/-- State of a `MemoryWritable` sink: the running `size` counter and the
accumulated list of chunks.  The source initializes `size` to `1`. -/
structure MemoryWritable where
  size : Nat
  chunks : List Buffer
deriving DecidableEq, Repr

/-- A freshly constructed `MemoryWritable`: `size = 1`, no chunks
(field initializers at lines 18-19 of memory-writable.ts). -/
def MemoryWritable.init : MemoryWritable :=
  { size := 1, chunks := [] }

/-- Method `_write`: adds the chunk's length to `size` and appends the chunk. -/
def MemoryWritable.write (w : MemoryWritable) (chunk : Buffer) : MemoryWritable :=
  { size := w.size + chunk.length, chunks := w.chunks ++ [chunk] }

/-- Method `_writev`: writes each chunk of the batch in order. -/
def MemoryWritable.writev (w : MemoryWritable) (cs : List Buffer) : MemoryWritable :=
  cs.foldl MemoryWritable.write w

/-- Method `getBuffer`: `Buffer.concat(this.chunks)`. -/
def MemoryWritable.getBuffer (w : MemoryWritable) : Buffer :=
  w.chunks.flatten

/-- Method `_destroy`: clears the chunks and resets `size` to `0`. -/
def MemoryWritable.destroy (_w : MemoryWritable) : MemoryWritable :=
  { size := 0, chunks := [] }

/-- A single stream operation against a `MemoryWritable`:
either a `_write` of one chunk or a `_writev` of a batch. -/
inductive MWOp
  | write (chunk : Buffer)
  | writev (chunks : List Buffer)
deriving DecidableEq, Repr

/-- Apply one stream operation to the sink state. -/
def MWOp.apply (w : MemoryWritable) : MWOp → MemoryWritable
  | .write c => w.write c
  | .writev cs => w.writev cs

/-- The chunks carried by one stream operation, in order. -/
def MWOp.data : MWOp → List Buffer
  | .write c => [c]
  | .writev cs => cs

/-! ## The shared in-memory store (src/utilities/in-memory-storage.ts)

`inMemoryStorage` is a JS `Map` keyed by `file.originalname`.  Since a file's
`originalname` may be a non-string value at runtime (the tests pass `null`),
keys are `Option String`; `none` models a non-string key. -/

/-- Key type of the in-memory store (`file.originalname`). -/
abbrev Key := Option String

/-- The shared in-memory store: insertion-ordered key/value entries,
keys unique (JS `Map` semantics). -/
abbrev Store := List (Key × Buffer)

/-- JS `Map.prototype.get`: first (and, for reachable stores, only) match. -/
def Store.get : Store → Key → Option Buffer
  | [], _ => none
  | (k', v) :: rest, k => if k' = k then some v else Store.get rest k

/-- JS `Map.prototype.set`: replace in place when the key exists, else append. -/
def Store.set : Store → Key → Buffer → Store
  | [], k, v => [(k, v)]
  | (k', v') :: rest, k, v =>
    if k' = k then (k, v) :: rest else (k', v') :: Store.set rest k v

/-- JS `Map.prototype.delete`: remove the entry with the given key, if any. -/
def Store.delete : Store → Key → Store
  | [], _ => []
  | (k', v') :: rest, k =>
    if k' = k then rest else (k', v') :: Store.delete rest k

/-- The JS-`Map` invariant: keys are pairwise distinct. -/
def Store.keysNodup (s : Store) : Prop :=
  (s.map Prod.fst).Nodup

instance (s : Store) : Decidable (Store.keysNodup s) := by
  unfold Store.keysNodup
  infer_instance

/-! ## MD5 (the `createHash("md5")` digest used by FakeMulterS3)

`node:crypto` is a platform library, not part of this repository; it is
embedded here by implementing the MD5 algorithm (RFC 1321) directly over
`Nat` arithmetic mod 2^32, which is what `createHash("md5")...digest("hex")`
computes.  Test vectors below check the implementation. -/

/-- The 64 MD5 sine-derived constants. -/
def md5K : List Nat :=
  [0xd76aa478, 0xe8c7b756, 0x242070db, 0xc1bdceee,
   0xf57c0faf, 0x4787c62a, 0xa8304613, 0xfd469501,
   0x698098d8, 0x8b44f7af, 0xffff5bb1, 0x895cd7be,
   0x6b901122, 0xfd987193, 0xa679438e, 0x49b40821,
   0xf61e2562, 0xc040b340, 0x265e5a51, 0xe9b6c7aa,
   0xd62f105d, 0x02441453, 0xd8a1e681, 0xe7d3fbc8,
   0x21e1cde6, 0xc33707d6, 0xf4d50d87, 0x455a14ed,
   0xa9e3e905, 0xfcefa3f8, 0x676f02d9, 0x8d2a4c8a,
   0xfffa3942, 0x8771f681, 0x6d9d6122, 0xfde5380c,
   0xa4beea44, 0x4bdecfa9, 0xf6bb4b60, 0xbebfbc70,
   0x289b7ec6, 0xeaa127fa, 0xd4ef3085, 0x04881d05,
   0xd9d4d039, 0xe6db99e5, 0x1fa27cf8, 0xc4ac5665,
   0xf4292244, 0x432aff97, 0xab9423a7, 0xfc93a039,
   0x655b59c3, 0x8f0ccc92, 0xffeff47d, 0x85845dd1,
   0x6fa87e4f, 0xfe2ce6e0, 0xa3014314, 0x4e0811a1,
   0xf7537e82, 0xbd3af235, 0x2ad7d2bb, 0xeb86d391]

/-- The 64 MD5 per-round left-rotation amounts. -/
def md5S : List Nat :=
  [7, 12, 17, 22, 7, 12, 17, 22, 7, 12, 17, 22, 7, 12, 17, 22,
   5, 9, 14, 20, 5, 9, 14, 20, 5, 9, 14, 20, 5, 9, 14, 20,
   4, 11, 16, 23, 4, 11, 16, 23, 4, 11, 16, 23, 4, 11, 16, 23,
   6, 10, 15, 21, 6, 10, 15, 21, 6, 10, 15, 21, 6, 10, 15, 21]

/-- The 32-bit bitwise complement (operands stay below 2^32 throughout). -/
def wnot (x : Nat) : Nat := Nat.xor x 4294967295

/-- The 32-bit left rotation. -/
def rotl (x c : Nat) : Nat :=
  ((x <<< c) ||| (x >>> (32 - c))) % 4294967296

/-- The MD5 round function and message-word index for step `i`. -/
def md5F (i b c d : Nat) : Nat × Nat :=
  if i < 16 then ((b &&& c) ||| (wnot b &&& d), i)
  else if i < 32 then ((d &&& b) ||| (wnot d &&& c), (5 * i + 1) % 16)
  else if i < 48 then (Nat.xor (Nat.xor b c) d, (3 * i + 5) % 16)
  else (Nat.xor c (b ||| wnot d), (7 * i) % 16)

/-- One MD5 step on the state `(a, b, c, d)`. -/
def md5Step (M : Nat → Nat) (st : Nat × Nat × Nat × Nat) (i : Nat) :
    Nat × Nat × Nat × Nat :=
  match st with
  | (a, b, c, d) =>
    let fg := md5F i b c d
    let f := (a + fg.1 + List.getD md5K i 0 + M fg.2) % 4294967296
    (d, (b + rotl f (List.getD md5S i 0)) % 4294967296, b, c)

/-- Little-endian byte decomposition, `k` bytes. -/
def leBytes (n : Nat) : Nat → List Byte
  | 0 => []
  | k + 1 => (n % 256) :: leBytes (n / 256) k

/-- Message word `j` (little-endian 32-bit) of a 64-byte block. -/
def md5Word (block : List Byte) (j : Nat) : Nat :=
  List.getD block (4 * j) 0 +
  256 * List.getD block (4 * j + 1) 0 +
  65536 * List.getD block (4 * j + 2) 0 +
  16777216 * List.getD block (4 * j + 3) 0

/-- Process one 64-byte block. -/
def md5Block (st : Nat × Nat × Nat × Nat) (block : List Byte) :
    Nat × Nat × Nat × Nat :=
  match st, (List.range 64).foldl (md5Step (md5Word block)) st with
  | (a0, b0, c0, d0), (a, b, c, d) =>
    ((a0 + a) % 4294967296, (b0 + b) % 4294967296,
     (c0 + c) % 4294967296, (d0 + d) % 4294967296)

/-- Split a list into chunks of `k` elements (fuel-bounded). -/
def chunksOfAux (k : Nat) : Nat → List α → List (List α)
  | 0, _ => []
  | _, [] => []
  | fuel + 1, l => l.take k :: chunksOfAux k fuel (l.drop k)

/-- Split a list into chunks of `k` elements. -/
def chunksOf (k : Nat) (l : List α) : List (List α) :=
  chunksOfAux k l.length l

/-- Number of zero padding bytes after the `0x80` marker. -/
def md5PadZeros (len : Nat) : Nat := (119 - len % 64) % 64

/-- MD5 digest of a byte sequence, as 16 bytes. -/
def md5Bytes (msg : List Byte) : List Byte :=
  let padded := msg ++ (128 :: List.replicate (md5PadZeros msg.length) 0) ++
    leBytes ((8 * msg.length) % 18446744073709551616) 8
  match (chunksOf 64 padded).foldl md5Block
      (0x67452301, 0xefcdab89, 0x98badcfe, 0x10325476) with
  | (a, b, c, d) => leBytes a 4 ++ leBytes b 4 ++ leBytes c 4 ++ leBytes d 4

/-- Lowercase hex digit. -/
def hexLowerDigit (n : Nat) : Char :=
  if n < 10 then Char.ofNat (48 + n) else Char.ofNat (87 + n)

/-- Lowercase two-digit hex of one byte. -/
def byteHexLower (b : Byte) : List Char :=
  [hexLowerDigit (b / 16 % 16), hexLowerDigit (b % 16)]

/-- Node `createHash("md5").update(buffer).digest("hex")`:
the lowercase hex MD5 digest of a byte sequence. -/
def md5Hex (msg : List Byte) : String :=
  String.mk ((md5Bytes msg).map byteHexLower).flatten

/-- RFC 1321 test vector: MD5 of the empty message. -/
theorem md5Hex_empty : md5Hex [] = "d41d8cd98f00b204e9800998ecf8427e" := by
  decide

/-- RFC 1321 test vector: MD5 of "abc". -/
theorem md5Hex_abc : md5Hex [97, 98, 99] = "900150983cd24fb0d6963f7d28e17f72" := by
  decide

/-! ## String utilities used by the engines -/

/-- JS `[a, b, ...].filter(Boolean).join(sep)`: drop falsy (empty) strings,
then join with the separator. -/
def joinTruthy (sep : String) (parts : List String) : String :=
  String.intercalate sep (parts.filter (fun s => s ≠ ""))

/-- Characters after the last `'/'` of the input (accumulator-passing):
models `name.substring(name.lastIndexOf("/") + 1)`. -/
def lastCompChars : List Char → List Char → List Char
  | acc, [] => acc
  | acc, c :: cs =>
    if c = '/' then lastCompChars [] cs else lastCompChars (acc ++ [c]) cs

/-- Regex `replace(/^\.+/g, "")`: strip the leading run of dots. -/
def stripLeadingDots (cs : List Char) : List Char :=
  cs.dropWhile (fun c => c = '.')

/-- Regex `replace(/^\/+/g, "")`: strip the leading run of slashes. -/
def stripLeadingSlashes (cs : List Char) : List Char :=
  cs.dropWhile (fun c => c = '/')

/-- Regex `replace(/^\/+|\/+$/g, "")`: strip leading and trailing runs of slashes. -/
def stripSlashesEnds (cs : List Char) : List Char :=
  ((cs.dropWhile (fun c => c = '/')).reverse.dropWhile (fun c => c = '/')).reverse

/-- Regex `replace(/\r|\n/g, "_")`: replace every CR and LF with an underscore. -/
def replaceCRLFChars (cs : List Char) : List Char :=
  cs.map (fun c => if c = '\r' ∨ c = '\n' then '_' else c)

/-- UTF-8 encoding of one character. -/
def utf8Bytes (c : Char) : List Byte :=
  let n := c.toNat
  if n < 128 then [n]
  else if n < 2048 then [192 + n / 64, 128 + n % 64]
  else if n < 65536 then [224 + n / 4096, 128 + n / 64 % 64, 128 + n % 64]
  else [240 + n / 262144, 128 + n / 4096 % 64, 128 + n / 64 % 64, 128 + n % 64]

/-- Uppercase hex digit. -/
def hexUpperDigit (n : Nat) : Char :=
  if n < 10 then Char.ofNat (48 + n) else Char.ofNat (55 + n)

/-- The `%XY` percent-escape of one byte. -/
def percentEncodeByte (b : Byte) : List Char :=
  ['%', hexUpperDigit (b / 16 % 16), hexUpperDigit (b % 16)]

/-- Characters `encodeURIComponent` leaves unescaped. -/
def isUnreservedURI (c : Char) : Bool :=
  c.isAlphanum || c = '-' || c = '_' || c = '.' || c = '!' || c = '~' ||
  c = '*' || c = Char.ofNat 39 || c = '(' || c = ')'

/-- The JS global `encodeURIComponent` (platform builtin). -/
def encodeURIComponent (s : String) : String :=
  String.mk (s.toList.foldr
    (fun c acc =>
      (if isUnreservedURI c then [c]
       else (utf8Bytes c).foldr (fun b a => percentEncodeByte b ++ a) []) ++ acc)
    [])

/-- One character under `application/x-www-form-urlencoded` encoding
(as produced by `URLSearchParams.toString`). -/
def formEncodeChar (c : Char) : List Char :=
  if c.isAlphanum || c = '*' || c = '-' || c = '.' || c = '_' then [c]
  else if c = ' ' then ['+']
  else (utf8Bytes c).foldr (fun b a => percentEncodeByte b ++ a) []

/-- The `application/x-www-form-urlencoded` encoding of a string. -/
def formEncode (s : String) : String :=
  String.mk (s.toList.foldr (fun c acc => formEncodeChar c ++ acc) [])

/-- JS `new URLSearchParams({...}).toString()` over an ordered pair list. -/
def urlSearchParamsToString (ps : List (String × String)) : String :=
  String.intercalate "&" (ps.map (fun p => formEncode p.1 ++ "=" ++ formEncode p.2))

/-- Suffix of the character list starting at its last `'.'`, if any. -/
def lastDotSuffix : List Char → Option (List Char)
  | [] => none
  | c :: cs =>
    match lastDotSuffix cs with
    | some s => some s
    | none => if c = '.' then some (c :: cs) else none

/-- Node's `path.extname` (platform builtin): the extension of the last
path component, empty for a leading-dot-only basename, `"."` and `".."`. -/
def extname (p : String) : String :=
  let base := lastCompChars [] p.toList
  if base = ['.'] ∨ base = ['.', '.'] then ""
  else
    match base with
    | [] => ""
    | _b0 :: rest =>
      match lastDotSuffix rest with
      | some s => String.mk s
      | none => ""

/-! ## Files, handlers, options and the external environment -/

/-- The slice of `Express.Multer.File` the engines read.  `originalname`
is `none` when the runtime value is not a string (the cloud-storage tests
exercise `null`). -/
structure MFile where
  fieldname : String
  originalname : Option String
  mimetype : String
deriving DecidableEq, Repr

/-- External nondeterminism and process state, threaded explicitly.
`isoAt` renders a millisecond timestamp as an ISO date string. -/
structure Env where
  tmpdir : String := "/tmp"
  randomBytesHex : Except Err String := .ok ""
  uuid : String := ""
  gcsBucket : Option String := none
  gcloudProject : Option String := none
  gcsKeyfile : Option String := none
  blobUuid : String := ""
  sigUuid : String := ""
  etagUuid : String := ""
  audienceIdx : Nat := 0
  versionIdx : Nat := 0
  nowMs : Nat := 0
  isoAt : Nat → String := fun _ => ""

/-- A configuration handler: models
`(req, file, cb) => cb(err)` as `.error err` and `cb(null, v)` as `.ok v`
(`none` for an omitted/`undefined` value).  The `req` argument is never
inspected by the library and is omitted. -/
abbrev Handler := MFile → Except Err (Option String)

/-- An engine option that may hold a plain string or a handler function. -/
inductive StrOrHandler
  | str (s : String)
  | handler (h : Handler)

/-- JS truthiness of an option value: `""` is falsy, functions are truthy. -/
def StrOrHandler.truthy : StrOrHandler → Bool
  | .str s => s ≠ ""
  | .handler _ => true

/-- JS truthiness of a possibly-absent option value. -/
def optTruthy : Option StrOrHandler → Bool
  | none => false
  | some x => x.truthy

/-- JS `v || d` on an option slot. -/
def jsOrSH : Option StrOrHandler → StrOrHandler → StrOrHandler
  | none, d => d
  | some x, d => if x.truthy then x else d

/-- The recurring constructor pattern
`const x = options.x || default; if (typeof x === "string") { cb(null, x) } else x`. -/
def resolveOption (v : Option StrOrHandler) (d : Handler) : Handler :=
  match jsOrSH v (.handler d) with
  | .str s => fun _ => .ok (some s)
  | .handler h => h

/-- JS truthiness of a possibly-absent string. -/
def strTruthy : Option String → Bool
  | none => false
  | some s => s ≠ ""

/-- JS `a || b || null` on strings (used for the env-var fallbacks). -/
def jsStrOr (a b : Option String) : Option String :=
  if strTruthy a then a else if strTruthy b then b else none

/-! ## File-processing utilities (src/utilities/file-processing.ts) -/

/-- Utility `getDestination`: yields the system temp directory. -/
def getDestination (env : Env) : Handler :=
  fun _ => .ok (some env.tmpdir)

/-- Utility `getFilename`: `randomBytes(16)` rendered as hex, or its error. -/
def getFilename (env : Env) : Handler :=
  fun _ =>
    match env.randomBytesHex with
    | .error e => .error e
    | .ok hex => .ok (some hex)

/-- Utility `getRandomIndex(max)` = `Math.floor(Math.random() * max)`.
`Math.random()` is in `[0, 1)`, so the result is in `[0, max)`;
the external random draw `r` is reduced into that range. -/
def getRandomIndex (r : Nat) (max : Nat) : Nat := r % max

/-- Outcome delivered to a `_handleFile` completion callback. -/
inductive Outcome (α : Type)
  | fail (e : Err)
  | ok (info : α)
  | crash (msg : String)
deriving DecidableEq, Repr

/-- The payload of a successful outcome, if any. -/
def Outcome.info? : Outcome α → Option α
  | .ok i => some i
  | _ => none

/-- Whether the outcome is a successful completion. -/
def Outcome.isOk : Outcome α → Bool
  | .ok _ => true
  | _ => false

/-! ## FakeMulterStorage (src/libraries/fake-multer-storage/index.ts) -/

/-- Disk storage options.  The TS type restricts `filename` to a handler,
but nothing in the constructor enforces it, so both slots accept either. -/
structure DiskStorageOptions where
  destination : Option StrOrHandler := none
  filename : Option StrOrHandler := none

/-- Constructed `FakeMulterStorage` state.  `getFilename` keeps whatever
`options.filename || getFilename` produced: the constructor has no
string-to-handler conversion for this slot (line 100). -/
structure DiskEngine where
  getDestination : Handler
  getFilename : StrOrHandler

/-- The `FakeMulterStorage` constructor (lines 91-101). -/
def FakeMulterStorage.mk (env : Env) (options : DiskStorageOptions) : DiskEngine :=
  { getDestination :=
      match jsOrSH options.destination (.handler (getDestination env)) with
      | .str s => fun _ => .ok (some s)
      | .handler h => h
    getFilename := jsOrSH options.filename (.handler (getFilename env)) }

/-- Response shape of a successful `FakeMulterStorage._handleFile`. -/
structure DiskFileInfo where
  destination : String
  filename : String
  path : String
  size : Nat
deriving DecidableEq, Repr

/-- Embedding of `FakeMulterStorage._handleFile` (lines 103-132).  The incoming stream is
given as its chunk list; the result pairs the callback outcome with the
updated shared store.  Invoking a stored string as a function is a `crash`. -/
def FakeMulterStorage.handleFile (eng : DiskEngine) (file : MFile)
    (chunks : List Buffer) (store : Store) : Outcome DiskFileInfo × Store :=
  match eng.getDestination file with
  | .error e => (.fail e, store)
  | .ok vd =>
    let destination := vd.getD ""
    match eng.getFilename with
    | .str _ => (.crash "this.getFilename is not a function", store)
    | .handler h =>
      match h file with
      | .error e => (.fail e, store)
      | .ok vf =>
        let filename := vf.getD ""
        let mockPath := joinTruthy "/" [destination, filename]
        let w := chunks.foldl MemoryWritable.write MemoryWritable.init
        (.ok { destination := destination, filename := filename,
               path := mockPath, size := w.size },
         Store.set store file.originalname w.getBuffer)

/-- Embedding of `FakeMulterStorage._removeFile` (lines 134-137). -/
def FakeMulterStorage.removeFile (file : MFile) (store : Store) :
    Option Err × Store :=
  (none, Store.delete store file.originalname)

/-! ## FakeMulterS3 (src/libraries/fake-multer-s3/index.ts) -/

/-- The `metadata` handler payload (`cb(null, metadata)`, an arbitrary
object or `null`), modelled as an optional key/value record. -/
abbrev S3Metadata := Option (List (String × String))

/-- An S3 metadata handler. -/
abbrev MetaHandler := MFile → Except Err S3Metadata

/-- Embedding of `S3StorageOptions` (lines 128-139).  `s3` records whether a truthy
client object was supplied. -/
structure S3StorageOptions where
  s3 : Bool := true
  bucket : Option StrOrHandler := none
  key : Option Handler := none
  acl : Option StrOrHandler := none
  contentType : Option StrOrHandler := none
  metadata : Option MetaHandler := none
  cacheControl : Option StrOrHandler := none
  contentDisposition : Option StrOrHandler := none
  storageClass : Option StrOrHandler := none
  serverSideEncryption : Option StrOrHandler := none

/-- Constructed `FakeMulterS3` state: the ten resolved handlers. -/
structure S3Engine where
  getKey : Handler
  getBucket : Handler
  getAcl : Handler
  getMetadata : MetaHandler
  getContentType : Handler
  getContentDisposition : Handler
  getCacheControl : Handler
  getStorageClass : Handler
  getServerSideEncryption : Handler
  getContentEncoding : Handler

/-- Default `#getBucket` (lines 215-217). -/
def FakeMulterS3.defaultGetBucket : Handler := fun _ => .ok (some "")

/-- Default `#getAcl` (lines 219-221). -/
def FakeMulterS3.defaultGetAcl : Handler := fun _ => .ok (some "private")

/-- Default `#getMetadata` (lines 223-225): `cb(null, null)`. -/
def FakeMulterS3.defaultGetMetadata : MetaHandler := fun _ => .ok none

/-- Default `#getContentType` (lines 227-229): the file's mimetype. -/
def FakeMulterS3.defaultGetContentType : Handler :=
  fun file => .ok (some file.mimetype)

/-- Default `#getContentDisposition` (lines 231-233): `cb(null, null)`. -/
def FakeMulterS3.defaultGetContentDisposition : Handler := fun _ => .ok none

/-- Default `#getCacheControl` (lines 235-237): `cb(null, null)`. -/
def FakeMulterS3.defaultGetCacheControl : Handler := fun _ => .ok none

/-- Default `#getStorageClass` (lines 239-241): `"STANDARD"`. -/
def FakeMulterS3.defaultGetStorageClass : Handler := fun _ => .ok (some "STANDARD")

/-- Default `#getServerSideEncryption` (lines 243-245): `cb(null, null)`. -/
def FakeMulterS3.defaultGetServerSideEncryption : Handler := fun _ => .ok none

/-- Default `#getContentEncoding` (lines 247-249): `cb(null, null)`. -/
def FakeMulterS3.defaultGetContentEncoding : Handler := fun _ => .ok none

/-- The `FakeMulterS3` constructor (lines 251-306).  Throws become
`.error`.  Note line 302 of the source: the contentEncoding slot is
resolved from `options.contentType`. -/
def FakeMulterS3.mk (options : S3StorageOptions) (env : Env) :
    Except Err S3Engine :=
  if options.s3 = false then .error "Expected opts.s3 to be object"
  else if optTruthy options.bucket = false then .error "bucket is required"
  else .ok
    { getBucket := resolveOption options.bucket FakeMulterS3.defaultGetBucket
      getMetadata :=
        match options.metadata with
        | some m => m
        | none => FakeMulterS3.defaultGetMetadata
      getKey :=
        match options.key with
        | some k => k
        | none => getFilename env
      getAcl := resolveOption options.acl FakeMulterS3.defaultGetAcl
      getContentType :=
        resolveOption options.contentType FakeMulterS3.defaultGetContentType
      getContentDisposition :=
        resolveOption options.contentDisposition
          FakeMulterS3.defaultGetContentDisposition
      getCacheControl :=
        resolveOption options.cacheControl FakeMulterS3.defaultGetCacheControl
      getStorageClass :=
        resolveOption options.storageClass FakeMulterS3.defaultGetStorageClass
      getServerSideEncryption :=
        resolveOption options.serverSideEncryption
          FakeMulterS3.defaultGetServerSideEncryption
      getContentEncoding :=
        resolveOption options.contentType
          FakeMulterS3.defaultGetContentEncoding }

/-- Response shape of a successful `FakeMulterS3._handleFile`. -/
structure S3FileInfo where
  size : Nat
  location : String
  bucket : String
  key : String
  acl : Option String
  contentType : Option String
  contentDisposition : Option String
  contentEncoding : Option String
  storageClass : Option String
  serverSideEncryption : Option String
  metadata : S3Metadata
  etag : String
  versionId : String
deriving DecidableEq, Repr

/-- Embedding of `FakeMulterS3._handleFile` (lines 308-403): the ten-handler callback
chain, then the buffered write and the synthesized response. -/
def FakeMulterS3.handleFile (env : Env) (eng : S3Engine) (file : MFile)
    (chunks : List Buffer) (store : Store) : Outcome S3FileInfo × Store :=
  match eng.getKey file with
  | .error e => (.fail e, store)
  | .ok vk =>
    let key := vk.getD ""
    match eng.getBucket file with
    | .error e => (.fail e, store)
    | .ok vb =>
      let bucket := vb.getD ""
      match eng.getAcl file with
      | .error e => (.fail e, store)
      | .ok acl =>
        match eng.getMetadata file with
        | .error e => (.fail e, store)
        | .ok metadata =>
          match eng.getContentType file with
          | .error e => (.fail e, store)
          | .ok contentType =>
            match eng.getContentDisposition file with
            | .error e => (.fail e, store)
            | .ok contentDisposition =>
              match eng.getCacheControl file with
              | .error e => (.fail e, store)
              -- resolved but not part of the synthesized response (source
              -- omits cacheControl from the callback object, lines 371-385)
              | .ok _cacheControl =>
                match eng.getStorageClass file with
                | .error e => (.fail e, store)
                | .ok storageClass =>
                  match eng.getServerSideEncryption file with
                  | .error e => (.fail e, store)
                  | .ok serverSideEncryption =>
                    match eng.getContentEncoding file with
                    | .error e => (.fail e, store)
                    | .ok contentEncoding =>
                      let w := chunks.foldl MemoryWritable.write
                        MemoryWritable.init
                      let buffer := w.getBuffer
                      let etag := "\"" ++ md5Hex buffer ++ "\""
                      let url := joinTruthy "." [bucket, "s3.amazonaws.com"]
                      let location := "https://" ++ url ++ "/" ++ key
                      (.ok { size := w.size, location := location,
                             bucket := bucket, key := key, acl := acl,
                             contentType := contentType,
                             contentDisposition := contentDisposition,
                             contentEncoding := contentEncoding,
                             storageClass := storageClass,
                             serverSideEncryption := serverSideEncryption,
                             metadata := metadata, etag := etag,
                             versionId := env.uuid },
                       Store.set store file.originalname buffer)

/-- Embedding of `FakeMulterS3._removeFile` (lines 405-408). -/
def FakeMulterS3.removeFile (file : MFile) (store : Store) :
    Option Err × Store :=
  (none, Store.delete store file.originalname)

/-! ## FakeMulterCloudStorage (src/libraries/fake-multer-cloud-storage/index.ts) -/

/-- The `contentType` option: a string or a `(req, file) => string | undefined`
function (`ContentTypeFunction` of multer-cloud-storage). -/
inductive CTOption
  | str (s : String)
  | handler (h : MFile → Option String)

/-- JS truthiness of a contentType option value. -/
def CTOption.truthy : CTOption → Bool
  | .str s => s ≠ ""
  | .handler _ => true

/-- Embedding of `MulterCloudStorageOptions` (lines 42-53).  `credentials` records
whether a truthy credentials object was supplied. -/
structure CloudStorageOptions where
  bucket : Option String := none
  projectId : Option String := none
  keyFilename : Option String := none
  credentials : Bool := false
  destination : Option StrOrHandler := none
  filename : Option StrOrHandler := none
  hideFilename : Bool := false
  uniformBucketLevelAccess : Bool := false
  contentType : Option CTOption := none

/-- Constructed `FakeMulterCloudStorage` state: the stored `#options`
fields that are later read, plus the two resolved handlers. -/
structure CloudEngine where
  bucket : Option String
  projectId : Option String
  keyFilename : Option String
  hideFilename : Bool
  uniformBucketLevelAccess : Bool
  contentType : Option CTOption
  getFilename : Handler
  getDestination : Handler

/-- Default `#getFilename` (lines 130-138): the originalname when it is a
string, a fresh uuid otherwise. -/
def FakeMulterCloudStorage.defaultGetFilename (env : Env) : Handler :=
  fun file =>
    match file.originalname with
    | some s => .ok (some s)
    | none => .ok (some env.uuid)

/-- Default `#getDestination` (lines 140-146): `cb(null, "")`. -/
def FakeMulterCloudStorage.defaultGetDestination : Handler :=
  fun _ => .ok (some "")

/-- The `FakeMulterCloudStorage` constructor (lines 205-253).  The stored
fallback values use the environment variables, but the validation tests the
raw `options`; throws become `.error`. -/
def FakeMulterCloudStorage.mk (env : Env) (options : CloudStorageOptions) :
    Except Err CloudEngine :=
  let getFilename0 :=
    resolveOption options.filename (FakeMulterCloudStorage.defaultGetFilename env)
  let getFilename1 :=
    if options.hideFilename then (fun _ => Except.ok (some env.uuid))
    else getFilename0
  let getDestination0 :=
    resolveOption options.destination FakeMulterCloudStorage.defaultGetDestination
  if strTruthy options.bucket = false then
    .error "You have to specify bucket for Google Cloud Storage to work."
  else if strTruthy options.projectId = false then
    .error "You have to specify project id for Google Cloud Storage to work."
  else if strTruthy options.keyFilename = false && options.credentials = false then
    .error "You have to specify credentials key file or credentials object, for Google Cloud Storage to work."
  else .ok
    { bucket := jsStrOr options.bucket env.gcsBucket
      projectId := jsStrOr options.projectId env.gcloudProject
      keyFilename := jsStrOr options.keyFilename env.gcsKeyfile
      hideFilename := options.hideFilename
      uniformBucketLevelAccess := options.uniformBucketLevelAccess
      contentType := options.contentType
      getFilename := getFilename1
      getDestination := getDestination0 }

/-- Embedding of `#sanitizeFilename` (lines 121-128): a fresh uuid for a falsy input,
otherwise strip leading dots, strip leading slashes, replace CR/LF. -/
def FakeMulterCloudStorage.sanitizeFilename (env : Env) (filename : String) :
    String :=
  if filename = "" then env.uuid
  else String.mk (replaceCRLFChars (stripLeadingSlashes (stripLeadingDots filename.toList)))

/-- Embedding of `#getContentType` (lines 148-165).  The `hideFilename` constructor
override (lines 218-221) reads the same stored flag and is subsumed. -/
def CloudEngine.contentTypeOf (eng : CloudEngine) (file : MFile) :
    Option String :=
  if eng.hideFilename then none
  else if eng.uniformBucketLevelAccess then some "application/octet-stream"
  else
    match eng.contentType with
    | some ct =>
      if ct.truthy then
        match ct with
        | .str s => some s
        | .handler h => h file
      else some file.mimetype
    | none => some file.mimetype

/-- The `blobFile` record built by `#getBlobFileReference`;
`blobName` is the getter `destination + name`. -/
structure BlobFileRef where
  name : String
  filename : String
  destination : String
deriving DecidableEq, Repr

/-- Embedding of `#getBlobFileReference` (lines 167-203).  A handler error makes the
enclosing callback `return false`, leaving the corresponding fields at
their initial `""` — the error is not propagated. -/
def FakeMulterCloudStorage.getBlobFileReference (env : Env) (eng : CloudEngine)
    (file : MFile) : BlobFileRef :=
  let destination :=
    match eng.getDestination file with
    | .error _ => ""
    | .ok vd =>
      let d := vd.getD ""
      let esc := String.mk (stripSlashesEnds (stripLeadingDots d.toList))
      if esc ≠ "" then esc ++ "/" else ""
  let fn :=
    match eng.getFilename file with
    | .error _ => ("", "")
    | .ok vf =>
      let name := FakeMulterCloudStorage.sanitizeFilename env (vf.getD "")
      (String.mk (lastCompChars [] name.toList), encodeURIComponent name)
  { name := fn.2, filename := fn.1, destination := destination }

/-- Response shape of a successful `FakeMulterCloudStorage._handleFile`. -/
structure CloudFileInfo where
  bucket : String
  destination : String
  filename : String
  path : String
  contentType : Option String
  size : Nat
  uri : String
  linkUrl : String
  selfLink : String
deriving DecidableEq, Repr

/-- Embedding of `FakeMulterCloudStorage._handleFile` (lines 255-286): no failure path
exists besides stream errors — the completion callback always receives a
synthesized response. -/
def FakeMulterCloudStorage.handleFile (env : Env) (eng : CloudEngine)
    (file : MFile) (chunks : List Buffer) (store : Store) :
    Outcome CloudFileInfo × Store :=
  let ref := FakeMulterCloudStorage.getBlobFileReference env eng file
  let path := joinTruthy "/" [ref.destination, ref.filename]
  let bucket := eng.bucket.getD ""
  let storage := joinTruthy "/" [bucket, path]
  let linkUrl := "https://storage.googleapis.com/" ++ storage
  let selfLink := "https://storage.googleapis.com/" ++ storage
  let uri := "gs://" ++ storage
  let w := chunks.foldl MemoryWritable.write MemoryWritable.init
  (.ok { bucket := bucket, destination := ref.destination,
         filename := ref.filename, path := path,
         contentType := CloudEngine.contentTypeOf eng file,
         size := w.size, uri := uri, linkUrl := linkUrl,
         selfLink := selfLink },
   Store.set store file.originalname w.getBuffer)

/-- Embedding of `FakeMulterCloudStorage._removeFile` (lines 288-292). -/
def FakeMulterCloudStorage.removeFile (file : MFile) (store : Store) :
    Option Err × Store :=
  (none, Store.delete store file.originalname)

/-! ## FakeMulterAzureBlobStorage (src/unnamed/part_002) -/

/-- An Azure metadata record (`Record<string, any>`). -/
abbrev AzureMetadata := List (String × String)

/-- Embedding of `AzureStorageOptions` (part_002 lines 32-41). `metadata` is a plain
object or an async handler whose rejection carries an error. -/
structure AzureStorageOptions where
  connectionString : Option String := none
  accountName : Option String := none
  accountKey : Option String := none
  containerName : Option String := none
  containerAccessLevel : Option String := none
  metadata : Option (Sum AzureMetadata (MFile → Except Err AzureMetadata)) := none
  urlExpirationTime : Option Nat := none

/-- Constructed `FakeMulterAzureBlobStorage` state. -/
structure AzureEngine where
  accountName : Option String
  containerName : String
  urlExpirationTime : Nat
  containerAccessLevel : String
  getMetadata : MFile → Except Err AzureMetadata

/-- The valid Azure API versions list (part_002 lines 62-106). -/
def VALID_AZURE_API_VERSIONS : List String :=
  ["2025-05-05", "2025-01-05", "2024-11-04", "2024-08-04", "2024-05-04",
   "2024-02-04", "2023-11-03", "2023-08-03", "2023-01-03", "2022-11-02",
   "2021-12-02", "2021-10-04", "2021-08-06", "2021-06-08", "2021-04-10",
   "2021-02-12", "2020-12-06", "2020-10-02", "2020-08-04", "2020-06-12",
   "2020-04-08", "2020-02-10", "2019-12-12", "2019-10-10", "2019-07-07",
   "2019-02-02", "2018-11-09", "2018-03-28", "2017-11-09", "2017-07-29",
   "2017-04-17", "2016-05-31", "2015-12-11", "2015-07-08", "2015-04-05",
   "2015-02-21", "2014-02-14", "2013-08-15", "2012-02-12", "2011-08-18",
   "2009-09-19", "2009-07-17", "2009-04-14"]

/-- The valid Azure blob audiences list (part_002 lines 108-115). -/
def VALID_AZURE_BLOB_AUDIENCE : List String :=
  ["storage.azure.com", "blob.core.windows.net"]

/-- The `FakeMulterAzureBlobStorage` constructor (part_002 lines 184-215). -/
def FakeMulterAzureBlobStorage.mk (options : AzureStorageOptions) :
    Except Err AzureEngine :=
  if strTruthy options.containerName = false then
    .error "Missing required parameter: Azure container name."
  else .ok
    { accountName := options.accountName
      containerName :=
        match options.containerName with
        | some s => if s = "" then "default-container" else s
        | none => "default-container"
      urlExpirationTime :=
        match options.urlExpirationTime with
        | some n => if n = 0 then 60 else n
        | none => 60
      containerAccessLevel :=
        match options.containerAccessLevel with
        | some s => if s = "" then "private" else s
        | none => "private"
      getMetadata :=
        match options.metadata with
        | some (.inl m) => fun _ => .ok m
        | some (.inr h) => h
        | none => fun _ => .ok [] }

/-- Response shape of a successful `FakeMulterAzureBlobStorage._handleFile`. -/
structure AzureFileInfo where
  url : String
  blobName : String
  etag : String
  blobType : String
  metadata : AzureMetadata
  container : String
  blobSize : Nat
deriving DecidableEq, Repr

/-- Embedding of `FakeMulterAzureBlobStorage._handleFile` (part_002 lines 217-271):
an async body in a try/catch — a metadata rejection, or the `TypeError`
thrown by `extname` on a non-string `originalname`, reaches the callback
as the error of the first failure. -/
def FakeMulterAzureBlobStorage.handleFile (env : Env) (eng : AzureEngine)
    (file : MFile) (chunks : List Buffer) (store : Store) :
    Outcome AzureFileInfo × Store :=
  match file.originalname with
  | none =>
    (.fail "TypeError: The path argument must be of type string", store)
  | some oname =>
    let container := eng.containerName
    let blobName := file.fieldname ++ "-" ++ env.blobUuid ++ extname oname
    match eng.getMetadata file with
    | .error e => (.fail e, store)
    | .ok metadata =>
      let audience := List.getD VALID_AZURE_BLOB_AUDIENCE
        (getRandomIndex env.audienceIdx VALID_AZURE_BLOB_AUDIENCE.length) ""
      let storage := joinTruthy "." [eng.accountName.getD "", audience]
      let blob := "https://" ++ storage ++ "/" ++ container ++ "/" ++ blobName
      let sas := urlSearchParamsToString
        [("sp", "r"), ("st", env.isoAt env.nowMs),
         ("se", env.isoAt (env.nowMs + eng.urlExpirationTime * 60 * 1000)),
         ("sv", List.getD VALID_AZURE_API_VERSIONS
            (getRandomIndex env.versionIdx VALID_AZURE_API_VERSIONS.length) ""),
         ("sr", "b"), ("sig", env.sigUuid)]
      let url := blob ++ "?" ++ sas
      let w := chunks.foldl MemoryWritable.write MemoryWritable.init
      (.ok { url := url, blobName := blobName,
             etag := "\"" ++ env.etagUuid ++ "\"", blobType := "BlockBlob",
             metadata := metadata, container := container,
             blobSize := w.size },
       Store.set store (some oname) w.getBuffer)

/-- Embedding of `FakeMulterAzureBlobStorage._removeFile` (part_002 lines 273-276). -/
def FakeMulterAzureBlobStorage.removeFile (file : MFile) (store : Store) :
    Option Err × Store :=
  (none, Store.delete store file.originalname)

/-! ## Helper lemmas about the sink, the store and strings -/

theorem mw_foldl_write_chunks (cs : List Buffer) (w : MemoryWritable) :
    (cs.foldl MemoryWritable.write w).chunks = w.chunks ++ cs := by
  induction cs generalizing w with
  | nil => simp
  | cons c rest ih => simp [List.foldl_cons, ih, MemoryWritable.write]

theorem mw_foldl_write_size (cs : List Buffer) (w : MemoryWritable) :
    (cs.foldl MemoryWritable.write w).size = w.size + totalBytes cs := by
  induction cs generalizing w with
  | nil => simp [totalBytes]
  | cons c rest ih =>
    simp [List.foldl_cons, ih, MemoryWritable.write, totalBytes]
    ring

theorem mw_run_getBuffer (chunks : List Buffer) :
    (chunks.foldl MemoryWritable.write MemoryWritable.init).getBuffer =
      chunks.flatten := by
  simp [MemoryWritable.getBuffer, mw_foldl_write_chunks, MemoryWritable.init]

theorem mw_run_size (chunks : List Buffer) :
    (chunks.foldl MemoryWritable.write MemoryWritable.init).size =
      totalBytes chunks + 1 := by
  simp [mw_foldl_write_size, MemoryWritable.init, Nat.add_comm]

theorem Store.get_set_self (s : Store) (k : Key) (v : Buffer) :
    Store.get (Store.set s k v) k = some v := by
  induction s with
  | nil => simp [Store.set, Store.get]
  | cons e rest ih =>
    obtain ⟨k', v'⟩ := e
    by_cases h : k' = k
    · simp [Store.set, Store.get, h]
    · simp [Store.set, Store.get, h, ih]

theorem Store.get_eq_none (s : Store) (k : Key) (h : k ∉ s.map Prod.fst) :
    Store.get s k = none := by
  induction s with
  | nil => rfl
  | cons e rest ih =>
    obtain ⟨k', v'⟩ := e
    simp only [List.map_cons, List.mem_cons, not_or] at h
    have hk : k' ≠ k := fun he => h.1 he.symm
    simp [Store.get, hk, ih h.2]

theorem Store.get_delete (s : Store) (h : Store.keysNodup s) (k0 k : Key) :
    Store.get (Store.delete s k0) k =
      if k = k0 then none else Store.get s k := by
  induction s with
  | nil => simp [Store.delete, Store.get]
  | cons e rest ih =>
    obtain ⟨k', v'⟩ := e
    simp only [Store.keysNodup, List.map_cons, List.nodup_cons] at h
    have ih' := ih h.2
    by_cases hk : k' = k0
    · simp only [Store.delete, if_pos hk]
      by_cases hkk : k = k0
      · rw [if_pos hkk]
        apply Store.get_eq_none rest k
        rw [hkk, ← hk]
        exact h.1
      · rw [if_neg hkk]
        have hne : k' ≠ k := by
          intro he
          exact hkk (he ▸ hk)
        simp [Store.get, hne]
    · simp only [Store.delete, if_neg hk]
      by_cases hkk : k' = k
      · have hne : ¬(k = k0) := by
          intro he
          exact hk (hkk.trans he)
        simp [Store.get, hkk, hne]
      · simp [Store.get, hkk, ih']

theorem lastCompChars_mem (cs : List Char) : ∀ (acc : List Char) (x : Char),
    x ∈ lastCompChars acc cs → x ∈ acc ∨ (x ∈ cs ∧ x ≠ '/') := by
  induction cs with
  | nil =>
    intro acc x hx
    exact .inl hx
  | cons c rest ih =>
    intro acc x hx
    simp only [lastCompChars] at hx
    by_cases hc : c = '/'
    · rw [if_pos hc] at hx
      rcases ih [] x hx with h | h
      · exact absurd h (List.not_mem_nil x)
      · exact .inr ⟨List.mem_cons_of_mem _ h.1, h.2⟩
    · rw [if_neg hc] at hx
      rcases ih (acc ++ [c]) x hx with h | h
      · rcases List.mem_append.mp h with h' | h'
        · exact .inl h'
        · have hxc : x = c := List.mem_singleton.mp h'
          exact .inr ⟨hxc ▸ List.mem_cons_self c rest, hxc ▸ hc⟩
      · exact .inr ⟨List.mem_cons_of_mem _ h.1, h.2⟩

theorem lastCompChars_of_no_slash (cs : List Char) (h : '/' ∉ cs) :
    ∀ acc, lastCompChars acc cs = acc ++ cs := by
  induction cs with
  | nil => intro acc; simp [lastCompChars]
  | cons c rest ih =>
    intro acc
    have hc : c ≠ '/' := fun he => h (he ▸ List.mem_cons_self c rest)
    have hrest : '/' ∉ rest := fun hm => h (List.mem_cons_of_mem c hm)
    simp only [lastCompChars, if_neg hc, ih hrest]
    simp

theorem replaceCRLFChars_mem (cs : List Char) (x : Char)
    (hx : x ∈ replaceCRLFChars cs) : x ≠ '\r' ∧ x ≠ '\n' := by
  simp only [replaceCRLFChars, List.mem_map] at hx
  obtain ⟨c, _hc, he⟩ := hx
  by_cases h1 : c = '\r' ∨ c = '\n'
  · rw [if_pos h1] at he
    subst he
    exact ⟨by decide, by decide⟩
  · rw [if_neg h1] at he
    subst he
    push_neg at h1
    exact h1

theorem replaceCRLFChars_id (cs : List Char)
    (h : ∀ c ∈ cs, ¬(c = '\r' ∨ c = '\n')) : replaceCRLFChars cs = cs := by
  induction cs with
  | nil => rfl
  | cons c rest ih =>
    have hc := h c (List.mem_cons_self c rest)
    have hr := ih (fun c' hc' => h c' (List.mem_cons_of_mem c hc'))
    simp only [replaceCRLFChars, List.map_cons, if_neg hc]
    exact congrArg (List.cons c) hr

theorem dropWhile_eq_self_of_all (p : Char → Bool) (cs : List Char)
    (h : ∀ c ∈ cs, p c = false) : cs.dropWhile p = cs := by
  cases cs with
  | nil => rfl
  | cons c rest => simp [List.dropWhile_cons, h c (List.mem_cons_self c rest)]

/-- Characters that never survive into a sanitized cloud-storage filename. -/
def noBadChars (s : String) : Bool :=
  s.toList.all (fun c => !(c == '/') && !(c == '\r') && !(c == '\n'))

/-- The shape of a `v4()` uuid string: nonempty, hex digits and hyphens. -/
def uuidShaped (s : String) : Bool :=
  !(s == "") && s.toList.all (fun c => c.isAlphanum || c == '-')

theorem uuidShaped_char (c : Char) (h : (c.isAlphanum || c == '-') = true) :
    c ≠ '/' ∧ c ≠ '\r' ∧ c ≠ '\n' ∧ c ≠ '.' := by
  refine ⟨?_, ?_, ?_, ?_⟩ <;> intro he <;> subst he <;> exact absurd h (by decide)

theorem uuidShaped_spec (s : String) (h : uuidShaped s = true) :
    s ≠ "" ∧ ∀ c ∈ s.toList, c ≠ '/' ∧ c ≠ '\r' ∧ c ≠ '\n' ∧ c ≠ '.' := by
  simp only [uuidShaped, Bool.and_eq_true, List.all_eq_true, Bool.not_eq_true',
    beq_eq_false_iff_ne, ne_eq] at h
  exact ⟨h.1, fun c hc => uuidShaped_char c (h.2 c hc)⟩

theorem noBadChars_iff (s : String) :
    noBadChars s = true ↔ ∀ c ∈ s.toList, c ≠ '/' ∧ c ≠ '\r' ∧ c ≠ '\n' := by
  simp [noBadChars, List.all_eq_true, Bool.and_eq_true, Bool.not_eq_true',
    beq_eq_false_iff_ne, and_assoc]

/-! ## Characterization of the success paths of each engine -/

theorem diskHandle_ok (eng : DiskEngine) (file : MFile) (chunks : List Buffer)
    (store : Store) (vd vf : Option String) (h : Handler)
    (hd : eng.getDestination file = .ok vd)
    (hf : eng.getFilename = .handler h)
    (hh : h file = .ok vf) :
    FakeMulterStorage.handleFile eng file chunks store =
      (.ok { destination := vd.getD "", filename := vf.getD "",
             path := joinTruthy "/" [vd.getD "", vf.getD ""],
             size := totalBytes chunks + 1 },
       Store.set store file.originalname chunks.flatten) := by
  simp [FakeMulterStorage.handleFile, hd, hf, hh, mw_run_size, mw_run_getBuffer]

theorem s3Handle_ok (env : Env) (eng : S3Engine) (file : MFile)
    (chunks : List Buffer) (store : Store)
    (vk vb acl ct cd cc sc sse ce : Option String) (md : S3Metadata)
    (hk : eng.getKey file = .ok vk)
    (hb : eng.getBucket file = .ok vb)
    (ha : eng.getAcl file = .ok acl)
    (hm : eng.getMetadata file = .ok md)
    (hct : eng.getContentType file = .ok ct)
    (hcd : eng.getContentDisposition file = .ok cd)
    (hcc : eng.getCacheControl file = .ok cc)
    (hsc : eng.getStorageClass file = .ok sc)
    (hsse : eng.getServerSideEncryption file = .ok sse)
    (hce : eng.getContentEncoding file = .ok ce) :
    FakeMulterS3.handleFile env eng file chunks store =
      (.ok { size := totalBytes chunks + 1,
             location := "https://" ++ joinTruthy "." [vb.getD "", "s3.amazonaws.com"]
               ++ "/" ++ vk.getD "",
             bucket := vb.getD "", key := vk.getD "", acl := acl,
             contentType := ct, contentDisposition := cd,
             contentEncoding := ce, storageClass := sc,
             serverSideEncryption := sse, metadata := md,
             etag := "\"" ++ md5Hex chunks.flatten ++ "\"",
             versionId := env.uuid },
       Store.set store file.originalname chunks.flatten) := by
  simp [FakeMulterS3.handleFile, hk, hb, ha, hm, hct, hcd, hcc, hsc, hsse, hce,
    mw_run_size, mw_run_getBuffer]

theorem cloudHandle_eq (env : Env) (eng : CloudEngine) (file : MFile)
    (chunks : List Buffer) (store : Store) :
    FakeMulterCloudStorage.handleFile env eng file chunks store =
      (.ok { bucket := eng.bucket.getD "",
             destination :=
               (FakeMulterCloudStorage.getBlobFileReference env eng file).destination,
             filename :=
               (FakeMulterCloudStorage.getBlobFileReference env eng file).filename,
             path := joinTruthy "/"
               [(FakeMulterCloudStorage.getBlobFileReference env eng file).destination,
                (FakeMulterCloudStorage.getBlobFileReference env eng file).filename],
             contentType := CloudEngine.contentTypeOf eng file,
             size := totalBytes chunks + 1,
             uri := "gs://" ++ joinTruthy "/"
               [eng.bucket.getD "",
                joinTruthy "/"
                  [(FakeMulterCloudStorage.getBlobFileReference env eng file).destination,
                   (FakeMulterCloudStorage.getBlobFileReference env eng file).filename]],
             linkUrl := "https://storage.googleapis.com/" ++ joinTruthy "/"
               [eng.bucket.getD "",
                joinTruthy "/"
                  [(FakeMulterCloudStorage.getBlobFileReference env eng file).destination,
                   (FakeMulterCloudStorage.getBlobFileReference env eng file).filename]],
             selfLink := "https://storage.googleapis.com/" ++ joinTruthy "/"
               [eng.bucket.getD "",
                joinTruthy "/"
                  [(FakeMulterCloudStorage.getBlobFileReference env eng file).destination,
                   (FakeMulterCloudStorage.getBlobFileReference env eng file).filename]] },
       Store.set store file.originalname chunks.flatten) := by
  simp [FakeMulterCloudStorage.handleFile, mw_run_size, mw_run_getBuffer]

theorem azureHandle_ok (env : Env) (eng : AzureEngine) (file : MFile)
    (chunks : List Buffer) (store : Store) (oname : String) (md : AzureMetadata)
    (ho : file.originalname = some oname)
    (hm : eng.getMetadata file = .ok md) :
    FakeMulterAzureBlobStorage.handleFile env eng file chunks store =
      (.ok { url := "https://" ++
               joinTruthy "." [eng.accountName.getD "",
                 List.getD VALID_AZURE_BLOB_AUDIENCE
                   (getRandomIndex env.audienceIdx
                     VALID_AZURE_BLOB_AUDIENCE.length) ""] ++
               "/" ++ eng.containerName ++ "/" ++
               (file.fieldname ++ "-" ++ env.blobUuid ++ extname oname) ++
               "?" ++ urlSearchParamsToString
                 [("sp", "r"), ("st", env.isoAt env.nowMs),
                  ("se", env.isoAt
                    (env.nowMs + eng.urlExpirationTime * 60 * 1000)),
                  ("sv", List.getD VALID_AZURE_API_VERSIONS
                    (getRandomIndex env.versionIdx
                      VALID_AZURE_API_VERSIONS.length) ""),
                  ("sr", "b"), ("sig", env.sigUuid)],
             blobName := file.fieldname ++ "-" ++ env.blobUuid ++ extname oname,
             etag := "\"" ++ env.etagUuid ++ "\"", blobType := "BlockBlob",
             metadata := md, container := eng.containerName,
             blobSize := totalBytes chunks + 1 },
       Store.set store (some oname) chunks.flatten) := by
  simp [FakeMulterAzureBlobStorage.handleFile, ho, hm, mw_run_size,
    mw_run_getBuffer]

theorem mwop_foldl_chunks (ops : List MWOp) (w : MemoryWritable) :
    (ops.foldl MWOp.apply w).chunks = w.chunks ++ (ops.map MWOp.data).flatten := by
  induction ops generalizing w with
  | nil => simp
  | cons op rest ih =>
    cases op with
    | write c =>
      simp [MWOp.apply, MWOp.data, MemoryWritable.write, ih, List.append_assoc]
    | writev cs =>
      simp [MWOp.apply, MWOp.data, MemoryWritable.writev, mw_foldl_write_chunks,
        ih, List.append_assoc]

/-- C7: for the shared buffering primitive `MemoryWritable`, any mix of
`_write`/`_writev` calls starting from a fresh sink accumulates exactly the
in-order concatenation of the written chunks as `getBuffer`; after `_destroy`
the buffer is empty and `size = 0`; and since a fresh sink has the sentinel
`size = 1`, a reset sink is never in the freshly-constructed state. -/
theorem claim_C7_memory_writable :
    (∀ ops : List MWOp,
      (ops.foldl MWOp.apply MemoryWritable.init).getBuffer =
        ((ops.map MWOp.data).flatten).flatten) ∧
    (∀ w : MemoryWritable,
      (MemoryWritable.destroy w).getBuffer = [] ∧
      (MemoryWritable.destroy w).size = 0) ∧
    MemoryWritable.init.size = 1 ∧
    (∀ w : MemoryWritable, MemoryWritable.destroy w ≠ MemoryWritable.init) := by
  refine ⟨?_, ?_, rfl, ?_⟩
  · intro ops
    simp [MemoryWritable.getBuffer, mwop_foldl_chunks, MemoryWritable.init]
  · intro w
    exact ⟨rfl, rfl⟩
  · intro w h
    simp [MemoryWritable.destroy, MemoryWritable.init] at h

/-- C8: for every engine and every (well-formed, duplicate-free) state of
the shared store, `_removeFile` deletes exactly the entry keyed by the
file's `originalname` — every other key reads unchanged — and invokes its
callback with `null`. -/
theorem claim_C8_removeFile :
    ∀ (store : Store), Store.keysNodup store → ∀ (file : MFile) (k : Key),
      ((FakeMulterStorage.removeFile file store).1 = none ∧
       Store.get (FakeMulterStorage.removeFile file store).2 k =
         (if k = file.originalname then none else Store.get store k)) ∧
      ((FakeMulterS3.removeFile file store).1 = none ∧
       Store.get (FakeMulterS3.removeFile file store).2 k =
         (if k = file.originalname then none else Store.get store k)) ∧
      ((FakeMulterCloudStorage.removeFile file store).1 = none ∧
       Store.get (FakeMulterCloudStorage.removeFile file store).2 k =
         (if k = file.originalname then none else Store.get store k)) ∧
      ((FakeMulterAzureBlobStorage.removeFile file store).1 = none ∧
       Store.get (FakeMulterAzureBlobStorage.removeFile file store).2 k =
         (if k = file.originalname then none else Store.get store k)) := by
  intro store h file k
  exact ⟨⟨rfl, Store.get_delete store h file.originalname k⟩,
         ⟨rfl, Store.get_delete store h file.originalname k⟩,
         ⟨rfl, Store.get_delete store h file.originalname k⟩,
         ⟨rfl, Store.get_delete store h file.originalname k⟩⟩

/-- Witness for C8 at a concrete two-entry store. -/
theorem claim_C8_witness :
    Store.keysNodup [(some "a", [1]), (some "b", [2])] ∧
    Store.get (FakeMulterStorage.removeFile
        { fieldname := "f", originalname := some "a", mimetype := "t" }
        [(some "a", [1]), (some "b", [2])]).2 (some "b") =
      (if (some "b" : Key) = some "a" then none
       else Store.get [(some "a", [1]), (some "b", [2])] (some "b")) :=
  ⟨by decide,
   ((claim_C8_removeFile [(some "a", [1]), (some "b", [2])] (by decide)
      { fieldname := "f", originalname := some "a", mimetype := "t" }
      (some "b")).1).2⟩

/-- C10: the `FakeMulterCloudStorage` constructor throws whenever the raw
`options.bucket` is falsy, whenever `options.projectId` is falsy (bucket
given), or whenever both `options.keyFilename` and `options.credentials`
are falsy — for EVERY environment, i.e. even when the `GCS_BUCKET`,
`GCLOUD_PROJECT`, `GCS_KEYFILE` fallbacks are set, because validation tests
the raw options, never the stored fallback values. -/
theorem claim_C10_cloud_constructor_validation :
    ∀ (env : Env) (options : CloudStorageOptions),
      (strTruthy options.bucket = false →
        FakeMulterCloudStorage.mk env options =
          .error "You have to specify bucket for Google Cloud Storage to work.") ∧
      (strTruthy options.bucket = true → strTruthy options.projectId = false →
        FakeMulterCloudStorage.mk env options =
          .error "You have to specify project id for Google Cloud Storage to work.") ∧
      (strTruthy options.bucket = true → strTruthy options.projectId = true →
        strTruthy options.keyFilename = false → options.credentials = false →
        FakeMulterCloudStorage.mk env options =
          .error "You have to specify credentials key file or credentials object, for Google Cloud Storage to work.") := by
  intro env options
  refine ⟨?_, ?_, ?_⟩
  · intro h
    simp [FakeMulterCloudStorage.mk, h]
  · intro h1 h2
    simp [FakeMulterCloudStorage.mk, h1, h2]
  · intro h1 h2 h3 h4
    simp [FakeMulterCloudStorage.mk, h1, h2, h3, h4]

/-- Witness for C10: bucket absent from the options but present in the
environment still throws. -/
theorem claim_C10_witness :
    strTruthy (none : Option String) = false ∧
    FakeMulterCloudStorage.mk
      { gcsBucket := some "env-bucket", gcloudProject := some "env-proj",
        gcsKeyfile := some "env-key" }
      { projectId := some "p", keyFilename := some "k" } =
      .error "You have to specify bucket for Google Cloud Storage to work." :=
  ⟨rfl,
   (claim_C10_cloud_constructor_validation
      { gcsBucket := some "env-bucket", gcloudProject := some "env-proj",
        gcsKeyfile := some "env-key" }
      { projectId := some "p", keyFilename := some "k" }).1 rfl⟩

/-- C1: whenever `_handleFile` of any of the four storage engines completes
successfully on a stream with chunks `c1..cn`, the shared store afterwards
maps the file's `originalname` to exactly the in-order concatenation
`c1 ++ ... ++ cn`, and the completion callback received a synthesized
response (`Outcome.ok info`). -/
theorem claim_C1_store_after_success :
    (∀ (eng : DiskEngine) (file : MFile) (chunks : List Buffer) (store : Store)
       (info : DiskFileInfo) (store' : Store),
       FakeMulterStorage.handleFile eng file chunks store = (.ok info, store') →
       Store.get store' file.originalname = some chunks.flatten) ∧
    (∀ (env : Env) (eng : S3Engine) (file : MFile) (chunks : List Buffer)
       (store : Store) (info : S3FileInfo) (store' : Store),
       FakeMulterS3.handleFile env eng file chunks store = (.ok info, store') →
       Store.get store' file.originalname = some chunks.flatten) ∧
    (∀ (env : Env) (eng : CloudEngine) (file : MFile) (chunks : List Buffer)
       (store : Store) (info : CloudFileInfo) (store' : Store),
       FakeMulterCloudStorage.handleFile env eng file chunks store =
         (.ok info, store') →
       Store.get store' file.originalname = some chunks.flatten) ∧
    (∀ (env : Env) (eng : AzureEngine) (file : MFile) (chunks : List Buffer)
       (store : Store) (info : AzureFileInfo) (store' : Store),
       FakeMulterAzureBlobStorage.handleFile env eng file chunks store =
         (.ok info, store') →
       Store.get store' file.originalname = some chunks.flatten) := by
  refine ⟨?_, ?_, ?_, ?_⟩
  · intro eng file chunks store info store' h
    rcases hd : eng.getDestination file with e | vd
    · simp [FakeMulterStorage.handleFile, hd] at h
    · rcases hf : eng.getFilename with s | hh
      · simp [FakeMulterStorage.handleFile, hd, hf] at h
      · rcases hr : hh file with e | vf
        · simp [FakeMulterStorage.handleFile, hd, hf, hr] at h
        · rw [diskHandle_ok eng file chunks store vd vf hh hd hf hr] at h
          simp only [Prod.mk.injEq] at h
          rw [← h.2]
          exact Store.get_set_self store file.originalname chunks.flatten
  · intro env eng file chunks store info store' h
    rcases hk : eng.getKey file with e | vk
    · simp [FakeMulterS3.handleFile, hk] at h
    · rcases hb : eng.getBucket file with e | vb
      · simp [FakeMulterS3.handleFile, hk, hb] at h
      · rcases ha : eng.getAcl file with e | acl
        · simp [FakeMulterS3.handleFile, hk, hb, ha] at h
        · rcases hm : eng.getMetadata file with e | md
          · simp [FakeMulterS3.handleFile, hk, hb, ha, hm] at h
          · rcases hct : eng.getContentType file with e | ct
            · simp [FakeMulterS3.handleFile, hk, hb, ha, hm, hct] at h
            · rcases hcd : eng.getContentDisposition file with e | cd
              · simp [FakeMulterS3.handleFile, hk, hb, ha, hm, hct, hcd] at h
              · rcases hcc : eng.getCacheControl file with e | cc
                · simp [FakeMulterS3.handleFile, hk, hb, ha, hm, hct, hcd,
                    hcc] at h
                · rcases hsc : eng.getStorageClass file with e | sc
                  · simp [FakeMulterS3.handleFile, hk, hb, ha, hm, hct, hcd,
                      hcc, hsc] at h
                  · rcases hsse : eng.getServerSideEncryption file with e | sse
                    · simp [FakeMulterS3.handleFile, hk, hb, ha, hm, hct, hcd,
                        hcc, hsc, hsse] at h
                    · rcases hce : eng.getContentEncoding file with e | ce
                      · simp [FakeMulterS3.handleFile, hk, hb, ha, hm, hct,
                          hcd, hcc, hsc, hsse, hce] at h
                      · rw [s3Handle_ok env eng file chunks store vk vb acl ct
                          cd cc sc sse ce md hk hb ha hm hct hcd hcc hsc hsse
                          hce] at h
                        simp only [Prod.mk.injEq] at h
                        rw [← h.2]
                        exact Store.get_set_self store file.originalname
                          chunks.flatten
  · intro env eng file chunks store info store' h
    rw [cloudHandle_eq env eng file chunks store] at h
    simp only [Prod.mk.injEq] at h
    rw [← h.2]
    exact Store.get_set_self store file.originalname chunks.flatten
  · intro env eng file chunks store info store' h
    rcases ho : file.originalname with _ | oname
    · simp [FakeMulterAzureBlobStorage.handleFile, ho] at h
    · rcases hm : eng.getMetadata file with e | md
      · simp [FakeMulterAzureBlobStorage.handleFile, ho, hm] at h
      · rw [azureHandle_ok env eng file chunks store oname md ho hm] at h
        simp only [Prod.mk.injEq] at h
        rw [← h.2]
        exact Store.get_set_self store (some oname) chunks.flatten

theorem stringExtData (a b : String) (h : a.data = b.data) : a = b := by
  cases a
  cases b
  exact congrArg String.mk h

theorem intercalate_pair (s a b : String) :
    String.intercalate s [a, b] = a ++ s ++ b := rfl

theorem append_dot_s3 (b : String) :
    b ++ "." ++ "s3.amazonaws.com" = b ++ ".s3.amazonaws.com" := by
  apply stringExtData
  show (b.data ++ ".".data) ++ "s3.amazonaws.com".data =
    b.data ++ ".s3.amazonaws.com".data
  rw [List.append_assoc]
  exact congrArg (b.data ++ ·) (by decide)

theorem s3_location_merge (b k : String) :
    "https://" ++ (b ++ ".s3.amazonaws.com") ++ "/" ++ k =
      "https://" ++ b ++ ".s3.amazonaws.com/" ++ k := by
  apply stringExtData
  show (("https://".data ++ (b.data ++ ".s3.amazonaws.com".data)) ++ "/".data)
      ++ k.data =
    (("https://".data ++ b.data) ++ ".s3.amazonaws.com/".data) ++ k.data
  simp only [List.append_assoc]
  refine congrArg ("https://".data ++ ·) (congrArg (b.data ++ ·) ?_)
  rw [← List.append_assoc]
  exact congrArg (· ++ k.data) (by decide)

theorem s3_location_empty (k : String) :
    "https://" ++ joinTruthy "." ["", "s3.amazonaws.com"] ++ "/" ++ k =
      "https://s3.amazonaws.com/" ++ k := by
  apply stringExtData
  exact congrArg (· ++ k.data) (by decide)

theorem joinTruthy_pair_ne (b : String) (hb : b ≠ "") :
    joinTruthy "." [b, "s3.amazonaws.com"] = b ++ "." ++ "s3.amazonaws.com" := by
  simp [joinTruthy, hb, intercalate_pair]

/-! ## Inversion of the success paths (shared by several claims) -/

theorem diskHandle_ok_inv (eng : DiskEngine) (file : MFile)
    (chunks : List Buffer) (store : Store) (info : DiskFileInfo)
    (store' : Store)
    (h : FakeMulterStorage.handleFile eng file chunks store =
      (.ok info, store')) :
    info.size = totalBytes chunks + 1 ∧
    store' = Store.set store file.originalname chunks.flatten := by
  rcases hd : eng.getDestination file with e | vd
  · simp [FakeMulterStorage.handleFile, hd] at h
  · rcases hf : eng.getFilename with s | hh
    · simp [FakeMulterStorage.handleFile, hd, hf] at h
    · rcases hr : hh file with e | vf
      · simp [FakeMulterStorage.handleFile, hd, hf, hr] at h
      · rw [diskHandle_ok eng file chunks store vd vf hh hd hf hr] at h
        simp only [Prod.mk.injEq, Outcome.ok.injEq] at h
        exact ⟨by rw [← h.1], h.2.symm⟩

theorem s3Handle_ok_inv (env : Env) (eng : S3Engine) (file : MFile)
    (chunks : List Buffer) (store : Store) (info : S3FileInfo)
    (store' : Store)
    (h : FakeMulterS3.handleFile env eng file chunks store =
      (.ok info, store')) :
    info.size = totalBytes chunks + 1 ∧
    info.etag = "\"" ++ md5Hex chunks.flatten ++ "\"" ∧
    info.location = "https://" ++
      joinTruthy "." [info.bucket, "s3.amazonaws.com"] ++ "/" ++ info.key ∧
    store' = Store.set store file.originalname chunks.flatten := by
  rcases hk : eng.getKey file with e | vk
  · simp [FakeMulterS3.handleFile, hk] at h
  · rcases hb : eng.getBucket file with e | vb
    · simp [FakeMulterS3.handleFile, hk, hb] at h
    · rcases ha : eng.getAcl file with e | acl
      · simp [FakeMulterS3.handleFile, hk, hb, ha] at h
      · rcases hm : eng.getMetadata file with e | md
        · simp [FakeMulterS3.handleFile, hk, hb, ha, hm] at h
        · rcases hct : eng.getContentType file with e | ct
          · simp [FakeMulterS3.handleFile, hk, hb, ha, hm, hct] at h
          · rcases hcd : eng.getContentDisposition file with e | cd
            · simp [FakeMulterS3.handleFile, hk, hb, ha, hm, hct, hcd] at h
            · rcases hcc : eng.getCacheControl file with e | cc
              · simp [FakeMulterS3.handleFile, hk, hb, ha, hm, hct, hcd,
                  hcc] at h
              · rcases hsc : eng.getStorageClass file with e | sc
                · simp [FakeMulterS3.handleFile, hk, hb, ha, hm, hct, hcd,
                    hcc, hsc] at h
                · rcases hsse : eng.getServerSideEncryption file with e | sse
                  · simp [FakeMulterS3.handleFile, hk, hb, ha, hm, hct, hcd,
                      hcc, hsc, hsse] at h
                  · rcases hce : eng.getContentEncoding file with e | ce
                    · simp [FakeMulterS3.handleFile, hk, hb, ha, hm, hct, hcd,
                        hcc, hsc, hsse, hce] at h
                    · rw [s3Handle_ok env eng file chunks store vk vb acl ct cd
                        cc sc sse ce md hk hb ha hm hct hcd hcc hsc hsse
                        hce] at h
                      simp only [Prod.mk.injEq, Outcome.ok.injEq] at h
                      refine ⟨by rw [← h.1], by rw [← h.1], by rw [← h.1],
                        h.2.symm⟩

theorem cloudHandle_ok_inv (env : Env) (eng : CloudEngine) (file : MFile)
    (chunks : List Buffer) (store : Store) (info : CloudFileInfo)
    (store' : Store)
    (h : FakeMulterCloudStorage.handleFile env eng file chunks store =
      (.ok info, store')) :
    info.size = totalBytes chunks + 1 ∧
    info.filename =
      (FakeMulterCloudStorage.getBlobFileReference env eng file).filename ∧
    store' = Store.set store file.originalname chunks.flatten := by
  rw [cloudHandle_eq env eng file chunks store] at h
  simp only [Prod.mk.injEq, Outcome.ok.injEq] at h
  refine ⟨by rw [← h.1], by rw [← h.1], h.2.symm⟩

theorem azureHandle_ok_inv (env : Env) (eng : AzureEngine) (file : MFile)
    (chunks : List Buffer) (store : Store) (info : AzureFileInfo)
    (store' : Store)
    (h : FakeMulterAzureBlobStorage.handleFile env eng file chunks store =
      (.ok info, store')) :
    info.blobSize = totalBytes chunks + 1 ∧
    store' = Store.set store file.originalname chunks.flatten := by
  rcases ho : file.originalname with _ | oname
  · simp [FakeMulterAzureBlobStorage.handleFile, ho] at h
  · rcases hm : eng.getMetadata file with e | md
    · simp [FakeMulterAzureBlobStorage.handleFile, ho, hm] at h
    · rw [azureHandle_ok env eng file chunks store oname md ho hm] at h
      simp only [Prod.mk.injEq, Outcome.ok.injEq] at h
      exact ⟨by rw [← h.1], h.2.symm⟩

/-- C2: the sink starts at the sentinel `size = 1`, so the `size`
(`blobSize` for Azure) of every successful upload's synthesized response is
the total byte count plus one — never the exact byte count. -/
theorem claim_C2_size_sentinel :
    (∀ (eng : DiskEngine) (file : MFile) (chunks : List Buffer) (store : Store)
       (info : DiskFileInfo) (store' : Store),
       FakeMulterStorage.handleFile eng file chunks store = (.ok info, store') →
       info.size = totalBytes chunks + 1 ∧ info.size ≠ totalBytes chunks) ∧
    (∀ (env : Env) (eng : S3Engine) (file : MFile) (chunks : List Buffer)
       (store : Store) (info : S3FileInfo) (store' : Store),
       FakeMulterS3.handleFile env eng file chunks store = (.ok info, store') →
       info.size = totalBytes chunks + 1 ∧ info.size ≠ totalBytes chunks) ∧
    (∀ (env : Env) (eng : CloudEngine) (file : MFile) (chunks : List Buffer)
       (store : Store) (info : CloudFileInfo) (store' : Store),
       FakeMulterCloudStorage.handleFile env eng file chunks store =
         (.ok info, store') →
       info.size = totalBytes chunks + 1 ∧ info.size ≠ totalBytes chunks) ∧
    (∀ (env : Env) (eng : AzureEngine) (file : MFile) (chunks : List Buffer)
       (store : Store) (info : AzureFileInfo) (store' : Store),
       FakeMulterAzureBlobStorage.handleFile env eng file chunks store =
         (.ok info, store') →
       info.blobSize = totalBytes chunks + 1 ∧
       info.blobSize ≠ totalBytes chunks) := by
  refine ⟨?_, ?_, ?_, ?_⟩
  · intro eng file chunks store info store' h
    have hi := diskHandle_ok_inv eng file chunks store info store' h
    exact ⟨hi.1, by rw [hi.1]; omega⟩
  · intro env eng file chunks store info store' h
    have hi := s3Handle_ok_inv env eng file chunks store info store' h
    exact ⟨hi.1, by rw [hi.1]; omega⟩
  · intro env eng file chunks store info store' h
    have hi := cloudHandle_ok_inv env eng file chunks store info store' h
    exact ⟨hi.1, by rw [hi.1]; omega⟩
  · intro env eng file chunks store info store' h
    have hi := azureHandle_ok_inv env eng file chunks store info store' h
    exact ⟨hi.1, by rw [hi.1]; omega⟩

/-- C4: every successful `FakeMulterS3._handleFile` synthesizes an etag that
is the double-quoted lowercase MD5 hex digest of the buffered content, and a
location of the form `https://<bucket>.s3.amazonaws.com/<key>`, with the
bucket segment and its joining dot omitted when the resolved bucket is the
empty string. -/
theorem claim_C4_s3_etag_location :
    ∀ (env : Env) (eng : S3Engine) (file : MFile) (chunks : List Buffer)
      (store : Store) (info : S3FileInfo) (store' : Store),
      FakeMulterS3.handleFile env eng file chunks store = (.ok info, store') →
      info.etag = "\"" ++ md5Hex chunks.flatten ++ "\"" ∧
      (info.bucket = "" →
        info.location = "https://s3.amazonaws.com/" ++ info.key) ∧
      (info.bucket ≠ "" →
        info.location =
          "https://" ++ info.bucket ++ ".s3.amazonaws.com/" ++ info.key) := by
  intro env eng file chunks store info store' h
  have hi := s3Handle_ok_inv env eng file chunks store info store' h
  refine ⟨hi.2.1, ?_, ?_⟩
  · intro hb
    rw [hi.2.2.1, hb]
    exact s3_location_empty info.key
  · intro hb
    rw [hi.2.2.1, joinTruthy_pair_ne info.bucket hb, append_dot_s3 info.bucket]
    exact s3_location_merge info.bucket info.key

/-! ## Concrete fixtures used by the witnesses and counterexamples -/

/-- A concrete environment. -/
def envW : Env :=
  { tmpdir := "/tmp", randomBytesHex := .ok "cafe",
    uuid := "11111111-2222-4333-8444-555555555555",
    blobUuid := "bbbb", sigUuid := "ssss", etagUuid := "eeee",
    isoAt := fun n => toString n }

/-- A concrete uploaded file. -/
def fileW : MFile :=
  { fieldname := "f", originalname := some "t.txt", mimetype := "text/plain" }

/-- A concrete S3 engine with fixed key and bucket handlers. -/
def s3EngW : S3Engine :=
  { getKey := fun _ => .ok (some "k.txt")
    getBucket := fun _ => .ok (some "test-bucket")
    getAcl := FakeMulterS3.defaultGetAcl
    getMetadata := FakeMulterS3.defaultGetMetadata
    getContentType := FakeMulterS3.defaultGetContentType
    getContentDisposition := FakeMulterS3.defaultGetContentDisposition
    getCacheControl := FakeMulterS3.defaultGetCacheControl
    getStorageClass := FakeMulterS3.defaultGetStorageClass
    getServerSideEncryption := FakeMulterS3.defaultGetServerSideEncryption
    getContentEncoding := FakeMulterS3.defaultGetContentEncoding }

/-- The response `s3EngW` synthesizes for `fileW` with chunks `[97][98,99]`. -/
def s3InfoW : S3FileInfo :=
  { size := 4, location := "https://test-bucket.s3.amazonaws.com/k.txt",
    bucket := "test-bucket", key := "k.txt", acl := some "private",
    contentType := some "text/plain", contentDisposition := none,
    contentEncoding := none, storageClass := some "STANDARD",
    serverSideEncryption := none, metadata := none,
    etag := "\"900150983cd24fb0d6963f7d28e17f72\"",
    versionId := "11111111-2222-4333-8444-555555555555" }

/-- Witness for C1 at a concrete disk-engine upload. -/
theorem claim_C1_witness :
    Store.get [(some "t.txt", [104, 105])] fileW.originalname =
      some [104, 105] :=
  claim_C1_store_after_success.1 (FakeMulterStorage.mk envW {}) fileW
    [[104], [105]] []
    { destination := "/tmp", filename := "cafe", path := "/tmp/cafe", size := 3 }
    [(some "t.txt", [104, 105])] (by rfl)

/-- Witness for C2 at a concrete disk-engine upload. -/
theorem claim_C2_witness :
    ({ destination := "/tmp", filename := "cafe", path := "/tmp/cafe",
       size := 3 } : DiskFileInfo).size = totalBytes [[104], [105]] + 1 ∧
    ({ destination := "/tmp", filename := "cafe", path := "/tmp/cafe",
       size := 3 } : DiskFileInfo).size ≠ totalBytes [[104], [105]] :=
  claim_C2_size_sentinel.1 (FakeMulterStorage.mk envW {}) fileW
    [[104], [105]] []
    { destination := "/tmp", filename := "cafe", path := "/tmp/cafe", size := 3 }
    [(some "t.txt", [104, 105])] (by rfl)

/-- Witness for C4 at a concrete S3 upload of the bytes of `"abc"`. -/
theorem claim_C4_witness :
    s3InfoW.etag = "\"" ++ md5Hex ([[97], [98, 99]] : List Buffer).flatten ++ "\"" ∧
    (s3InfoW.bucket = "" →
      s3InfoW.location = "https://s3.amazonaws.com/" ++ s3InfoW.key) ∧
    (s3InfoW.bucket ≠ "" →
      s3InfoW.location =
        "https://" ++ s3InfoW.bucket ++ ".s3.amazonaws.com/" ++ s3InfoW.key) :=
  claim_C4_s3_etag_location envW s3EngW fileW [[97], [98, 99]] [] s3InfoW
    [(some "t.txt", [97, 98, 99])] (by rfl)

/-- C3 counterexample: a `FakeMulterCloudStorage` engine whose destination
handler passes an error still completes successfully — the callback receives
a synthesized response (no error) and the shared store gains an entry —
refuting the claim that every engine forwards the first handler error and
leaves the store unchanged. -/
theorem claim_C3_counterexample :
    (FakeMulterCloudStorage.mk envW
        { bucket := some "b", projectId := some "p", keyFilename := some "k",
          destination := some (.handler (fun _ => .error "boom")) }).map
      (fun eng =>
        let r := FakeMulterCloudStorage.handleFile envW eng fileW [[104, 105]] []
        (r.1.isOk, r.2)) =
    .ok (true, [(some "t.txt", [104, 105])]) := by
  rfl

/-- C3 (amended): for the disk, S3 and Azure engines, when a configuration
handler errors and every handler before it in the chain succeeded, the
completion callback receives exactly that first error, the shared store is
unchanged, and the handlers after it are irrelevant to the result (they are
universally quantified in the engine).  The cloud-storage engine is excluded:
it swallows destination/filename handler errors (see the counterexample). -/
theorem claim_C3_amended_first_error :
    (∀ (eng : DiskEngine) (file : MFile) (chunks : List Buffer) (store : Store)
       (e : Err),
       eng.getDestination file = .error e →
       FakeMulterStorage.handleFile eng file chunks store = (.fail e, store)) ∧
    (∀ (eng : DiskEngine) (file : MFile) (chunks : List Buffer) (store : Store)
       (vd : Option String) (h : Handler) (e : Err),
       eng.getDestination file = .ok vd → eng.getFilename = .handler h →
       h file = .error e →
       FakeMulterStorage.handleFile eng file chunks store = (.fail e, store)) ∧
    (∀ (env : Env) (eng : S3Engine) (file : MFile) (chunks : List Buffer)
       (store : Store) (e : Err),
       eng.getKey file = .error e →
       FakeMulterS3.handleFile env eng file chunks store = (.fail e, store)) ∧
    (∀ (env : Env) (eng : S3Engine) (file : MFile) (chunks : List Buffer)
       (store : Store) (v1 : Option String) (e : Err),
       eng.getKey file = .ok v1 → eng.getBucket file = .error e →
       FakeMulterS3.handleFile env eng file chunks store = (.fail e, store)) ∧
    (∀ (env : Env) (eng : S3Engine) (file : MFile) (chunks : List Buffer)
       (store : Store) (v1 v2 : Option String) (e : Err),
       eng.getKey file = .ok v1 → eng.getBucket file = .ok v2 →
       eng.getAcl file = .error e →
       FakeMulterS3.handleFile env eng file chunks store = (.fail e, store)) ∧
    (∀ (env : Env) (eng : S3Engine) (file : MFile) (chunks : List Buffer)
       (store : Store) (v1 v2 v3 : Option String) (e : Err),
       eng.getKey file = .ok v1 → eng.getBucket file = .ok v2 →
       eng.getAcl file = .ok v3 → eng.getMetadata file = .error e →
       FakeMulterS3.handleFile env eng file chunks store = (.fail e, store)) ∧
    (∀ (env : Env) (eng : S3Engine) (file : MFile) (chunks : List Buffer)
       (store : Store) (v1 v2 v3 : Option String) (m : S3Metadata) (e : Err),
       eng.getKey file = .ok v1 → eng.getBucket file = .ok v2 →
       eng.getAcl file = .ok v3 → eng.getMetadata file = .ok m →
       eng.getContentType file = .error e →
       FakeMulterS3.handleFile env eng file chunks store = (.fail e, store)) ∧
    (∀ (env : Env) (eng : S3Engine) (file : MFile) (chunks : List Buffer)
       (store : Store) (v1 v2 v3 v4 : Option String) (m : S3Metadata) (e : Err),
       eng.getKey file = .ok v1 → eng.getBucket file = .ok v2 →
       eng.getAcl file = .ok v3 → eng.getMetadata file = .ok m →
       eng.getContentType file = .ok v4 →
       eng.getContentDisposition file = .error e →
       FakeMulterS3.handleFile env eng file chunks store = (.fail e, store)) ∧
    (∀ (env : Env) (eng : S3Engine) (file : MFile) (chunks : List Buffer)
       (store : Store) (v1 v2 v3 v4 v5 : Option String) (m : S3Metadata)
       (e : Err),
       eng.getKey file = .ok v1 → eng.getBucket file = .ok v2 →
       eng.getAcl file = .ok v3 → eng.getMetadata file = .ok m →
       eng.getContentType file = .ok v4 →
       eng.getContentDisposition file = .ok v5 →
       eng.getCacheControl file = .error e →
       FakeMulterS3.handleFile env eng file chunks store = (.fail e, store)) ∧
    (∀ (env : Env) (eng : S3Engine) (file : MFile) (chunks : List Buffer)
       (store : Store) (v1 v2 v3 v4 v5 v6 : Option String) (m : S3Metadata)
       (e : Err),
       eng.getKey file = .ok v1 → eng.getBucket file = .ok v2 →
       eng.getAcl file = .ok v3 → eng.getMetadata file = .ok m →
       eng.getContentType file = .ok v4 →
       eng.getContentDisposition file = .ok v5 →
       eng.getCacheControl file = .ok v6 →
       eng.getStorageClass file = .error e →
       FakeMulterS3.handleFile env eng file chunks store = (.fail e, store)) ∧
    (∀ (env : Env) (eng : S3Engine) (file : MFile) (chunks : List Buffer)
       (store : Store) (v1 v2 v3 v4 v5 v6 v7 : Option String) (m : S3Metadata)
       (e : Err),
       eng.getKey file = .ok v1 → eng.getBucket file = .ok v2 →
       eng.getAcl file = .ok v3 → eng.getMetadata file = .ok m →
       eng.getContentType file = .ok v4 →
       eng.getContentDisposition file = .ok v5 →
       eng.getCacheControl file = .ok v6 →
       eng.getStorageClass file = .ok v7 →
       eng.getServerSideEncryption file = .error e →
       FakeMulterS3.handleFile env eng file chunks store = (.fail e, store)) ∧
    (∀ (env : Env) (eng : S3Engine) (file : MFile) (chunks : List Buffer)
       (store : Store) (v1 v2 v3 v4 v5 v6 v7 v8 : Option String)
       (m : S3Metadata) (e : Err),
       eng.getKey file = .ok v1 → eng.getBucket file = .ok v2 →
       eng.getAcl file = .ok v3 → eng.getMetadata file = .ok m →
       eng.getContentType file = .ok v4 →
       eng.getContentDisposition file = .ok v5 →
       eng.getCacheControl file = .ok v6 →
       eng.getStorageClass file = .ok v7 →
       eng.getServerSideEncryption file = .ok v8 →
       eng.getContentEncoding file = .error e →
       FakeMulterS3.handleFile env eng file chunks store = (.fail e, store)) ∧
    (∀ (env : Env) (eng : AzureEngine) (file : MFile) (chunks : List Buffer)
       (store : Store) (oname : String) (e : Err),
       file.originalname = some oname → eng.getMetadata file = .error e →
       FakeMulterAzureBlobStorage.handleFile env eng file chunks store =
         (.fail e, store)) := by
  refine ⟨?_, ?_, ?_, ?_, ?_, ?_, ?_, ?_, ?_, ?_, ?_, ?_, ?_⟩
  · intro eng file chunks store e h1
    simp [FakeMulterStorage.handleFile, h1]
  · intro eng file chunks store vd h e h1 h2 h3
    simp [FakeMulterStorage.handleFile, h1, h2, h3]
  · intro env eng file chunks store e h1
    simp [FakeMulterS3.handleFile, h1]
  · intro env eng file chunks store v1 e h1 h2
    simp [FakeMulterS3.handleFile, h1, h2]
  · intro env eng file chunks store v1 v2 e h1 h2 h3
    simp [FakeMulterS3.handleFile, h1, h2, h3]
  · intro env eng file chunks store v1 v2 v3 e h1 h2 h3 h4
    simp [FakeMulterS3.handleFile, h1, h2, h3, h4]
  · intro env eng file chunks store v1 v2 v3 m e h1 h2 h3 h4 h5
    simp [FakeMulterS3.handleFile, h1, h2, h3, h4, h5]
  · intro env eng file chunks store v1 v2 v3 v4 m e h1 h2 h3 h4 h5 h6
    simp [FakeMulterS3.handleFile, h1, h2, h3, h4, h5, h6]
  · intro env eng file chunks store v1 v2 v3 v4 v5 m e h1 h2 h3 h4 h5 h6 h7
    simp [FakeMulterS3.handleFile, h1, h2, h3, h4, h5, h6, h7]
  · intro env eng file chunks store v1 v2 v3 v4 v5 v6 m e h1 h2 h3 h4 h5 h6 h7
      h8
    simp [FakeMulterS3.handleFile, h1, h2, h3, h4, h5, h6, h7, h8]
  · intro env eng file chunks store v1 v2 v3 v4 v5 v6 v7 m e h1 h2 h3 h4 h5 h6
      h7 h8 h9
    simp [FakeMulterS3.handleFile, h1, h2, h3, h4, h5, h6, h7, h8, h9]
  · intro env eng file chunks store v1 v2 v3 v4 v5 v6 v7 v8 m e h1 h2 h3 h4 h5
      h6 h7 h8 h9 h10
    simp [FakeMulterS3.handleFile, h1, h2, h3, h4, h5, h6, h7, h8, h9, h10]
  · intro env eng file chunks store oname e h1 h2
    simp [FakeMulterAzureBlobStorage.handleFile, h1, h2]

/-- A concrete disk engine whose destination handler fails. -/
def diskEngFailW : DiskEngine :=
  { getDestination := fun _ => .error "boom"
    getFilename := .handler (getFilename envW) }

/-- Witness for the amended C3: a failing destination handler propagates
its error and leaves the store empty. -/
theorem claim_C3_witness :
    FakeMulterStorage.handleFile diskEngFailW fileW [[1]] [] =
      (.fail "boom", []) :=
  claim_C3_amended_first_error.1 diskEngFailW fileW [[1]] [] "boom" rfl

/-- C5 counterexample: for the disk engine's `filename` option, the string
form is NOT equivalent to the handler form — the constructor stores the
string without conversion, so `_handleFile` crashes trying to invoke it,
while the handler form succeeds. -/
theorem claim_C5_counterexample :
    FakeMulterStorage.handleFile
        (FakeMulterStorage.mk envW { filename := some (.str "f.txt") })
        fileW [[104]] [] ≠
      FakeMulterStorage.handleFile
        (FakeMulterStorage.mk envW
          { filename := some (.handler (fun _ => .ok (some "f.txt"))) })
        fileW [[104]] [] := by
  decide

/-- C5 (amended): for every NONEMPTY string `s` (the empty string is falsy
and falls back to the default handler instead), supplying `s` is
observationally equal to supplying a handler calling `cb(null, s)` for:
disk `destination`; cloud `destination` and `filename`; S3 `bucket`, `acl`,
`cacheControl`, `contentDisposition`, `storageClass`,
`serverSideEncryption`.  Disk `filename` is excluded: it has no string
branch (see the counterexample). -/
theorem claim_C5_amended_string_handler_equiv :
    ∀ (s : String), s ≠ "" →
    (∀ (o : DiskStorageOptions) (env : Env) (file : MFile)
       (chunks : List Buffer) (store : Store),
       FakeMulterStorage.handleFile
           (FakeMulterStorage.mk env { o with destination := some (.str s) })
           file chunks store =
         FakeMulterStorage.handleFile
           (FakeMulterStorage.mk env
             { o with destination := some (.handler (fun _ => .ok (some s))) })
           file chunks store) ∧
    (∀ (o : CloudStorageOptions) (env : Env) (file : MFile)
       (chunks : List Buffer) (store : Store),
       (FakeMulterCloudStorage.mk env
           { o with destination := some (.str s) }).map
           (fun eng =>
             FakeMulterCloudStorage.handleFile env eng file chunks store) =
         (FakeMulterCloudStorage.mk env
           { o with destination := some (.handler (fun _ => .ok (some s))) }).map
           (fun eng =>
             FakeMulterCloudStorage.handleFile env eng file chunks store)) ∧
    (∀ (o : CloudStorageOptions) (env : Env) (file : MFile)
       (chunks : List Buffer) (store : Store),
       (FakeMulterCloudStorage.mk env
           { o with filename := some (.str s) }).map
           (fun eng =>
             FakeMulterCloudStorage.handleFile env eng file chunks store) =
         (FakeMulterCloudStorage.mk env
           { o with filename := some (.handler (fun _ => .ok (some s))) }).map
           (fun eng =>
             FakeMulterCloudStorage.handleFile env eng file chunks store)) ∧
    (∀ (o : S3StorageOptions) (env : Env) (file : MFile)
       (chunks : List Buffer) (store : Store),
       (FakeMulterS3.mk { o with bucket := some (.str s) } env).map
           (fun eng => FakeMulterS3.handleFile env eng file chunks store) =
         (FakeMulterS3.mk
           { o with bucket := some (.handler (fun _ => .ok (some s))) } env).map
           (fun eng => FakeMulterS3.handleFile env eng file chunks store)) ∧
    (∀ (o : S3StorageOptions) (env : Env) (file : MFile)
       (chunks : List Buffer) (store : Store),
       (FakeMulterS3.mk { o with acl := some (.str s) } env).map
           (fun eng => FakeMulterS3.handleFile env eng file chunks store) =
         (FakeMulterS3.mk
           { o with acl := some (.handler (fun _ => .ok (some s))) } env).map
           (fun eng => FakeMulterS3.handleFile env eng file chunks store)) ∧
    (∀ (o : S3StorageOptions) (env : Env) (file : MFile)
       (chunks : List Buffer) (store : Store),
       (FakeMulterS3.mk { o with cacheControl := some (.str s) } env).map
           (fun eng => FakeMulterS3.handleFile env eng file chunks store) =
         (FakeMulterS3.mk
           { o with cacheControl := some (.handler (fun _ => .ok (some s))) } env).map
           (fun eng => FakeMulterS3.handleFile env eng file chunks store)) ∧
    (∀ (o : S3StorageOptions) (env : Env) (file : MFile)
       (chunks : List Buffer) (store : Store),
       (FakeMulterS3.mk { o with contentDisposition := some (.str s) } env).map
           (fun eng => FakeMulterS3.handleFile env eng file chunks store) =
         (FakeMulterS3.mk
           { o with contentDisposition := some (.handler (fun _ => .ok (some s))) } env).map
           (fun eng => FakeMulterS3.handleFile env eng file chunks store)) ∧
    (∀ (o : S3StorageOptions) (env : Env) (file : MFile)
       (chunks : List Buffer) (store : Store),
       (FakeMulterS3.mk { o with storageClass := some (.str s) } env).map
           (fun eng => FakeMulterS3.handleFile env eng file chunks store) =
         (FakeMulterS3.mk
           { o with storageClass := some (.handler (fun _ => .ok (some s))) } env).map
           (fun eng => FakeMulterS3.handleFile env eng file chunks store)) ∧
    (∀ (o : S3StorageOptions) (env : Env) (file : MFile)
       (chunks : List Buffer) (store : Store),
       (FakeMulterS3.mk { o with serverSideEncryption := some (.str s) } env).map
           (fun eng => FakeMulterS3.handleFile env eng file chunks store) =
         (FakeMulterS3.mk
           { o with serverSideEncryption := some (.handler (fun _ => .ok (some s))) } env).map
           (fun eng => FakeMulterS3.handleFile env eng file chunks store)) := by
  intro s hs
  refine ⟨?_, ?_, ?_, ?_, ?_, ?_, ?_, ?_, ?_⟩
  · intro o env file chunks store
    have he : FakeMulterStorage.mk env { o with destination := some (.str s) } =
        FakeMulterStorage.mk env
          { o with destination := some (.handler (fun _ => .ok (some s))) } := by
      simp [FakeMulterStorage.mk, jsOrSH, StrOrHandler.truthy, hs]
    rw [he]
  · intro o env file chunks store
    have he : FakeMulterCloudStorage.mk env
          { o with destination := some (.str s) } =
        FakeMulterCloudStorage.mk env
          { o with destination := some (.handler (fun _ => .ok (some s))) } := by
      simp [FakeMulterCloudStorage.mk, resolveOption, jsOrSH,
        StrOrHandler.truthy, hs]
    rw [he]
  · intro o env file chunks store
    have he : FakeMulterCloudStorage.mk env
          { o with filename := some (.str s) } =
        FakeMulterCloudStorage.mk env
          { o with filename := some (.handler (fun _ => .ok (some s))) } := by
      simp [FakeMulterCloudStorage.mk, resolveOption, jsOrSH,
        StrOrHandler.truthy, hs]
    rw [he]
  · intro o env file chunks store
    have he : FakeMulterS3.mk { o with bucket := some (.str s) } env =
        FakeMulterS3.mk
          { o with bucket := some (.handler (fun _ => .ok (some s))) } env := by
      simp [FakeMulterS3.mk, optTruthy, resolveOption, jsOrSH,
        StrOrHandler.truthy, hs]
    rw [he]
  · intro o env file chunks store
    have he : FakeMulterS3.mk { o with acl := some (.str s) } env =
        FakeMulterS3.mk
          { o with acl := some (.handler (fun _ => .ok (some s))) } env := by
      simp [FakeMulterS3.mk, optTruthy, resolveOption, jsOrSH,
        StrOrHandler.truthy, hs]
    rw [he]
  · intro o env file chunks store
    have he : FakeMulterS3.mk { o with cacheControl := some (.str s) } env =
        FakeMulterS3.mk
          { o with cacheControl := some (.handler (fun _ => .ok (some s))) } env := by
      simp [FakeMulterS3.mk, optTruthy, resolveOption, jsOrSH,
        StrOrHandler.truthy, hs]
    rw [he]
  · intro o env file chunks store
    have he : FakeMulterS3.mk
          { o with contentDisposition := some (.str s) } env =
        FakeMulterS3.mk
          { o with contentDisposition := some (.handler (fun _ => .ok (some s))) } env := by
      simp [FakeMulterS3.mk, optTruthy, resolveOption, jsOrSH,
        StrOrHandler.truthy, hs]
    rw [he]
  · intro o env file chunks store
    have he : FakeMulterS3.mk { o with storageClass := some (.str s) } env =
        FakeMulterS3.mk
          { o with storageClass := some (.handler (fun _ => .ok (some s))) } env := by
      simp [FakeMulterS3.mk, optTruthy, resolveOption, jsOrSH,
        StrOrHandler.truthy, hs]
    rw [he]
  · intro o env file chunks store
    have he : FakeMulterS3.mk
          { o with serverSideEncryption := some (.str s) } env =
        FakeMulterS3.mk
          { o with serverSideEncryption := some (.handler (fun _ => .ok (some s))) } env := by
      simp [FakeMulterS3.mk, optTruthy, resolveOption, jsOrSH,
        StrOrHandler.truthy, hs]
    rw [he]

/-- Witness for the amended C5: disk destination, `s = "d"`. -/
theorem claim_C5_witness :
    FakeMulterStorage.handleFile
        (FakeMulterStorage.mk envW
          { ({} : DiskStorageOptions) with destination := some (.str "d") })
        fileW [[1]] [] =
      FakeMulterStorage.handleFile
        (FakeMulterStorage.mk envW
          { ({} : DiskStorageOptions) with destination := some (.handler (fun _ => .ok (some "d"))) })
        fileW [[1]] [] :=
  (claim_C5_amended_string_handler_equiv "d" (by decide)).1 {} envW fileW
    [[1]] []

/-- The contentEncoding field of the response an engine built from the
given options synthesizes, `none` at any failure. -/
def s3RunContentEncoding (env : Env) (o : S3StorageOptions) (file : MFile)
    (chunks : List Buffer) (store : Store) : Option (Option String) :=
  match FakeMulterS3.mk o env with
  | .error _ => none
  | .ok eng =>
    ((FakeMulterS3.handleFile env eng file chunks store).1.info?).map
      S3FileInfo.contentEncoding

/-- C6 counterexample: supplying a `contentType` handler makes the
synthesized `contentEncoding` equal to the resolved content type — not
`null` — because the constructor (source line 302) resolves the
contentEncoding slot from `options.contentType`. -/
theorem claim_C6_counterexample :
    s3RunContentEncoding envW
      { bucket := some (.str "b"),
        contentType := some (.handler (fun _ => .ok (some "text/html"))) }
      fileW [[104]] [] = some (some "text/html") ∧
    (some (some "text/html") : Option (Option String)) ≠ some none := by
  exact ⟨by rfl, by decide⟩

theorem s3Handle_ctEnc_eq (env : Env) (eng : S3Engine) (file : MFile)
    (chunks : List Buffer) (store : Store) (info : S3FileInfo)
    (store' : Store)
    (heq : eng.getContentEncoding = eng.getContentType)
    (h : FakeMulterS3.handleFile env eng file chunks store =
      (.ok info, store')) :
    info.contentEncoding = info.contentType := by
  rcases hk : eng.getKey file with e | vk
  · simp [FakeMulterS3.handleFile, hk] at h
  · rcases hb : eng.getBucket file with e | vb
    · simp [FakeMulterS3.handleFile, hk, hb] at h
    · rcases ha : eng.getAcl file with e | acl
      · simp [FakeMulterS3.handleFile, hk, hb, ha] at h
      · rcases hm : eng.getMetadata file with e | md
        · simp [FakeMulterS3.handleFile, hk, hb, ha, hm] at h
        · rcases hct : eng.getContentType file with e | ct
          · simp [FakeMulterS3.handleFile, hk, hb, ha, hm, hct] at h
          · rcases hcd : eng.getContentDisposition file with e | cd
            · simp [FakeMulterS3.handleFile, hk, hb, ha, hm, hct, hcd] at h
            · rcases hcc : eng.getCacheControl file with e | cc
              · simp [FakeMulterS3.handleFile, hk, hb, ha, hm, hct, hcd,
                  hcc] at h
              · rcases hsc : eng.getStorageClass file with e | sc
                · simp [FakeMulterS3.handleFile, hk, hb, ha, hm, hct, hcd,
                    hcc, hsc] at h
                · rcases hsse : eng.getServerSideEncryption file with e | sse
                  · simp [FakeMulterS3.handleFile, hk, hb, ha, hm, hct, hcd,
                      hcc, hsc, hsse] at h
                  · have hce : eng.getContentEncoding file = .ok ct := by
                      rw [heq]
                      exact hct
                    rw [s3Handle_ok env eng file chunks store vk vb acl ct cd
                      cc sc sse ct md hk hb ha hm hct hcd hcc hsc hsse hce] at h
                    simp only [Prod.mk.injEq, Outcome.ok.injEq] at h
                    rw [← h.1]

/-- C6 (amended): with every optional slot left unset (bucket is required),
the synthesized response carries the documented defaults — `acl = private`,
`storageClass = STANDARD`, `contentType` = the file's mimetype, and
`metadata`, `contentDisposition`, `serverSideEncryption`, `contentEncoding`
all null — and the resolved cacheControl handler yields null.  But
`contentEncoding` is NOT null regardless of the other options: whenever a
truthy `contentType` option is supplied, the synthesized `contentEncoding`
equals the synthesized `contentType`, because the constructor resolves the
contentEncoding slot from `options.contentType` (source line 302). -/
theorem claim_C6_amended_s3_defaults :
    (∀ (env : Env) (b : String) (file : MFile) (chunks : List Buffer)
       (store : Store) (hex : String), b ≠ "" →
       env.randomBytesHex = .ok hex →
       (FakeMulterS3.mk { bucket := some (.str b) } env).map
         (fun eng => (FakeMulterS3.handleFile env eng file chunks store).1) =
       .ok (.ok { size := totalBytes chunks + 1,
                  location := "https://" ++
                    joinTruthy "." [b, "s3.amazonaws.com"] ++ "/" ++ hex,
                  bucket := b, key := hex, acl := some "private",
                  contentType := some file.mimetype,
                  contentDisposition := none, contentEncoding := none,
                  storageClass := some "STANDARD",
                  serverSideEncryption := none, metadata := none,
                  etag := "\"" ++ md5Hex chunks.flatten ++ "\"",
                  versionId := env.uuid })) ∧
    (∀ (env : Env) (b : String) (file : MFile), b ≠ "" →
       (FakeMulterS3.mk { bucket := some (.str b) } env).map
         (fun eng => eng.getCacheControl file) = .ok (.ok none)) ∧
    (∀ (options : S3StorageOptions) (env : Env) (eng : S3Engine)
       (file : MFile) (chunks : List Buffer) (store : Store)
       (info : S3FileInfo) (store' : Store),
       optTruthy options.contentType = true →
       FakeMulterS3.mk options env = .ok eng →
       FakeMulterS3.handleFile env eng file chunks store = (.ok info, store') →
       info.contentEncoding = info.contentType) := by
  refine ⟨?_, ?_, ?_⟩
  · intro env b file chunks store hex hb hrb
    have hmk : FakeMulterS3.mk { bucket := some (.str b) } env =
        .ok { getKey := getFilename env
              getBucket := fun _ => Except.ok (some b)
              getAcl := FakeMulterS3.defaultGetAcl
              getMetadata := FakeMulterS3.defaultGetMetadata
              getContentType := FakeMulterS3.defaultGetContentType
              getContentDisposition := FakeMulterS3.defaultGetContentDisposition
              getCacheControl := FakeMulterS3.defaultGetCacheControl
              getStorageClass := FakeMulterS3.defaultGetStorageClass
              getServerSideEncryption :=
                FakeMulterS3.defaultGetServerSideEncryption
              getContentEncoding := FakeMulterS3.defaultGetContentEncoding } := by
      simp [FakeMulterS3.mk, optTruthy, StrOrHandler.truthy, hb, resolveOption,
        jsOrSH]
    rw [hmk]
    simp only [Except.map]
    rw [s3Handle_ok env _ file chunks store (some hex) (some b)
      (some "private") (some file.mimetype) none none (some "STANDARD") none
      none none (by simp [getFilename, hrb]) rfl rfl rfl rfl rfl rfl rfl rfl
      rfl]
    rfl
  · intro env b file hb
    have hmk : FakeMulterS3.mk { bucket := some (.str b) } env =
        .ok { getKey := getFilename env
              getBucket := fun _ => Except.ok (some b)
              getAcl := FakeMulterS3.defaultGetAcl
              getMetadata := FakeMulterS3.defaultGetMetadata
              getContentType := FakeMulterS3.defaultGetContentType
              getContentDisposition := FakeMulterS3.defaultGetContentDisposition
              getCacheControl := FakeMulterS3.defaultGetCacheControl
              getStorageClass := FakeMulterS3.defaultGetStorageClass
              getServerSideEncryption :=
                FakeMulterS3.defaultGetServerSideEncryption
              getContentEncoding := FakeMulterS3.defaultGetContentEncoding } := by
      simp [FakeMulterS3.mk, optTruthy, StrOrHandler.truthy, hb, resolveOption,
        jsOrSH]
    rw [hmk]
    rfl
  · intro options env eng file chunks store info store' htr hmk h
    have heng : eng.getContentEncoding = eng.getContentType := by
      by_cases h1 : options.s3 = false
      · simp [FakeMulterS3.mk, h1] at hmk
      · by_cases h2 : optTruthy options.bucket = false
        · simp [FakeMulterS3.mk, h1, h2] at hmk
        · simp only [FakeMulterS3.mk] at hmk
          rw [if_neg h1, if_neg h2] at hmk
          have hmk2 := Except.ok.inj hmk
          rw [← hmk2]
          rcases hct2 : options.contentType with _ | x
          · rw [hct2] at htr
            simp [optTruthy] at htr
          · cases x with
            | str s2 =>
              have hs2 : s2 ≠ "" := by
                rw [hct2] at htr
                simpa [optTruthy, StrOrHandler.truthy] using htr
              simp [resolveOption, jsOrSH, StrOrHandler.truthy, hs2]
            | handler hh =>
              simp [resolveOption, jsOrSH, StrOrHandler.truthy]
    exact s3Handle_ctEnc_eq env eng file chunks store info store' heng h

/-- Witness for the amended C6 at a concrete default-options upload. -/
theorem claim_C6_witness :
    (FakeMulterS3.mk { bucket := some (.str "b") } envW).map
      (fun eng => (FakeMulterS3.handleFile envW eng fileW [[104]] []).1) =
    .ok (.ok { size := totalBytes [[104]] + 1,
               location := "https://" ++
                 joinTruthy "." ["b", "s3.amazonaws.com"] ++ "/" ++ "cafe",
               bucket := "b", key := "cafe", acl := some "private",
               contentType := some fileW.mimetype, contentDisposition := none,
               contentEncoding := none, storageClass := some "STANDARD",
               serverSideEncryption := none, metadata := none,
               etag := "\"" ++ md5Hex ([[104]] : List Buffer).flatten ++ "\"",
               versionId := envW.uuid }) :=
  claim_C6_amended_s3_defaults.1 envW "b" fileW [[104]] [] "cafe"
    (by decide) rfl

theorem sanitize_no_crlf (env : Env) (s : String)
    (hu : uuidShaped env.uuid = true) :
    ∀ c ∈ (FakeMulterCloudStorage.sanitizeFilename env s).toList,
      c ≠ '\r' ∧ c ≠ '\n' := by
  intro c hc
  by_cases hs : s = ""
  · rw [FakeMulterCloudStorage.sanitizeFilename, if_pos hs] at hc
    have := (uuidShaped_spec env.uuid hu).2 c hc
    exact ⟨this.2.1, this.2.2.1⟩
  · rw [FakeMulterCloudStorage.sanitizeFilename, if_neg hs] at hc
    exact replaceCRLFChars_mem _ c hc

theorem sanitize_uuid (env : Env) (hu : uuidShaped env.uuid = true) :
    FakeMulterCloudStorage.sanitizeFilename env env.uuid = env.uuid := by
  have hs := uuidShaped_spec env.uuid hu
  rw [FakeMulterCloudStorage.sanitizeFilename, if_neg hs.1]
  have h1 : List.dropWhile (fun c => c = '.') env.uuid.toList =
      env.uuid.toList :=
    dropWhile_eq_self_of_all _ _
      (fun c hc => decide_eq_false (hs.2 c hc).2.2.2)
  have h2 : List.dropWhile (fun c => c = '/') env.uuid.toList =
      env.uuid.toList :=
    dropWhile_eq_self_of_all _ _ (fun c hc => decide_eq_false (hs.2 c hc).1)
  have h3 : replaceCRLFChars env.uuid.toList = env.uuid.toList :=
    replaceCRLFChars_id _ (fun c hc => by
      have hcc := hs.2 c hc
      rintro (h | h)
      exacts [hcc.2.1 h, hcc.2.2.1 h])
  simp only [stripLeadingDots, stripLeadingSlashes]
  rw [h1, h2, h3]
  rfl

theorem ref_filename_noBad (env : Env) (eng : CloudEngine) (file : MFile)
    (hu : uuidShaped env.uuid = true) :
    noBadChars
      (FakeMulterCloudStorage.getBlobFileReference env eng file).filename =
      true := by
  rcases hf : eng.getFilename file with e | vf
  · simp [FakeMulterCloudStorage.getBlobFileReference, hf, noBadChars]
  · simp only [FakeMulterCloudStorage.getBlobFileReference, hf]
    refine (noBadChars_iff _).mpr ?_
    intro c hc
    have hm := lastCompChars_mem
      (FakeMulterCloudStorage.sanitizeFilename env (vf.getD "")).toList [] c hc
    rcases hm with h0 | ⟨hmem, hsl⟩
    · exact absurd h0 (List.not_mem_nil c)
    · have hcr := sanitize_no_crlf env (vf.getD "") hu c hmem
      exact ⟨hsl, hcr.1, hcr.2⟩

theorem ref_filename_of_empty (env : Env) (eng : CloudEngine) (file : MFile)
    (v : Option String) (hu : uuidShaped env.uuid = true)
    (hf : eng.getFilename file = .ok v) (hv : v.getD "" = "") :
    (FakeMulterCloudStorage.getBlobFileReference env eng file).filename =
      env.uuid := by
  simp only [FakeMulterCloudStorage.getBlobFileReference, hf]
  rw [hv, FakeMulterCloudStorage.sanitizeFilename, if_pos rfl]
  have hs := uuidShaped_spec env.uuid hu
  have hns : '/' ∉ env.uuid.toList := fun hm => (hs.2 _ hm).1 rfl
  rw [lastCompChars_of_no_slash env.uuid.toList hns []]
  rfl

theorem ref_filename_of_uuid (env : Env) (eng : CloudEngine) (file : MFile)
    (hu : uuidShaped env.uuid = true)
    (hf : eng.getFilename file = .ok (some env.uuid)) :
    (FakeMulterCloudStorage.getBlobFileReference env eng file).filename =
      env.uuid := by
  simp only [FakeMulterCloudStorage.getBlobFileReference, hf]
  rw [show (some env.uuid).getD "" = env.uuid from rfl, sanitize_uuid env hu]
  have hs := uuidShaped_spec env.uuid hu
  have hns : '/' ∉ env.uuid.toList := fun hm => (hs.2 _ hm).1 rfl
  rw [lastCompChars_of_no_slash env.uuid.toList hns []]
  rfl

/-- C9: (i) the filename of every successful
`FakeMulterCloudStorage._handleFile` response contains no `/`, CR or LF
character; (ii) when the resolved filename is empty (falsy), the filename is
the freshly generated uuid; (iii) when no filename option is given
(`hideFilename` unset) and `originalname` is not a string, the filename is
the freshly generated uuid.  The uuid drawn from the environment is assumed
uuid-shaped (nonempty, hex digits and hyphens). -/
theorem claim_C9_cloud_filename_sanitized :
    (∀ (env : Env) (eng : CloudEngine) (file : MFile) (chunks : List Buffer)
       (store : Store) (info : CloudFileInfo) (store' : Store),
       uuidShaped env.uuid = true →
       FakeMulterCloudStorage.handleFile env eng file chunks store =
         (.ok info, store') →
       noBadChars info.filename = true) ∧
    (∀ (env : Env) (eng : CloudEngine) (file : MFile) (chunks : List Buffer)
       (store : Store) (v : Option String) (info : CloudFileInfo)
       (store' : Store),
       uuidShaped env.uuid = true →
       eng.getFilename file = .ok v → v.getD "" = "" →
       FakeMulterCloudStorage.handleFile env eng file chunks store =
         (.ok info, store') →
       info.filename = env.uuid) ∧
    (∀ (env : Env) (options : CloudStorageOptions) (eng : CloudEngine)
       (file : MFile) (chunks : List Buffer) (store : Store)
       (info : CloudFileInfo) (store' : Store),
       uuidShaped env.uuid = true →
       options.filename = none → options.hideFilename = false →
       FakeMulterCloudStorage.mk env options = .ok eng →
       file.originalname = none →
       FakeMulterCloudStorage.handleFile env eng file chunks store =
         (.ok info, store') →
       info.filename = env.uuid) := by
  refine ⟨?_, ?_, ?_⟩
  · intro env eng file chunks store info store' hu h
    have hi := cloudHandle_ok_inv env eng file chunks store info store' h
    rw [hi.2.1]
    exact ref_filename_noBad env eng file hu
  · intro env eng file chunks store v info store' hu hf hv h
    have hi := cloudHandle_ok_inv env eng file chunks store info store' h
    rw [hi.2.1]
    exact ref_filename_of_empty env eng file v hu hf hv
  · intro env options eng file chunks store info store' hu hfn hh hmk ho h
    have hgf : eng.getFilename = FakeMulterCloudStorage.defaultGetFilename env := by
      by_cases h1 : strTruthy options.bucket = false
      · simp [FakeMulterCloudStorage.mk, h1] at hmk
      · by_cases h2 : strTruthy options.projectId = false
        · simp [FakeMulterCloudStorage.mk, h1, h2] at hmk
        · by_cases h3 : strTruthy options.keyFilename = false
          · by_cases h4 : options.credentials = false
            · simp [FakeMulterCloudStorage.mk, h1, h2, h3, h4] at hmk
            · simp [FakeMulterCloudStorage.mk, h1, h2, h3, h4] at hmk
              rw [← hmk]
              simp [hfn, hh, resolveOption, jsOrSH]
          · simp [FakeMulterCloudStorage.mk, h1, h2, h3] at hmk
            rw [← hmk]
            simp [hfn, hh, resolveOption, jsOrSH]
    have hf : eng.getFilename file = .ok (some env.uuid) := by
      rw [hgf]
      simp [FakeMulterCloudStorage.defaultGetFilename, ho]
    have hi := cloudHandle_ok_inv env eng file chunks store info store' h
    rw [hi.2.1]
    exact ref_filename_of_uuid env eng file hu hf

/-- A concrete cloud-storage engine using the default handlers. -/
def cloudEngW : CloudEngine :=
  { bucket := some "b", projectId := some "p", keyFilename := some "k",
    hideFilename := false, uniformBucketLevelAccess := false,
    contentType := none,
    getFilename := FakeMulterCloudStorage.defaultGetFilename envW,
    getDestination := FakeMulterCloudStorage.defaultGetDestination }

/-- The response `cloudEngW` synthesizes for `fileW` with chunk `[104]`. -/
def cloudInfoW : CloudFileInfo :=
  { bucket := "b", destination := "", filename := "t.txt", path := "t.txt",
    contentType := some "text/plain", size := 2, uri := "gs://b/t.txt",
    linkUrl := "https://storage.googleapis.com/b/t.txt",
    selfLink := "https://storage.googleapis.com/b/t.txt" }

/-- Witness for C9 at a concrete cloud-storage upload. -/
theorem claim_C9_witness : noBadChars cloudInfoW.filename = true :=
  claim_C9_cloud_filename_sanitized.1 envW cloudEngW fileW [[104]] []
    cloudInfoW [(some "t.txt", [104])] (by decide) (by rfl)
